import Mathlib

/-!
# The network client loop of the lightdb-stream sample

Shallow embedding of `samples/lightdb-stream/src/main.c`: the thread function
`golioth_main`, its helper `connect_client`, and the timer / work-queue path
`client_rx_timeout` → `client_rx_timeout_work` → `client_request_reconnect`.

The loop thread is a step function on an explicit state; every step runs the
code up to (and including) one call that touches state shared with the other
execution contexts.  The other contexts (timer expiry, system work queue, the
passing of time) are separate events on the same state, so that every
interleaving of the loop with them is a list of events.
-/

namespace LightdbStream

/-! ## Constants of `main.c` -/

/-- `#define RX_TIMEOUT K_SECONDS(30)`, in milliseconds. -/
def RX_TIMEOUT : Nat := 30000

/-- Zephyr's `K_NO_WAIT`: a zero period makes `k_timer_start` one-shot. -/
def K_NO_WAIT : Nat := 0

/-- `#define POLLFD_EVENT_RECONNECT 0`. -/
@[reducible] def POLLFD_EVENT_RECONNECT : Fin 2 := 0

/-- `#define POLLFD_SOCKET 1`. -/
@[reducible] def POLLFD_SOCKET : Fin 2 := 1

/-- Zephyr's `ZSOCK_POLLIN` readiness bit. -/
def ZSOCK_POLLIN : Nat := 1

/-! ## Data model -/

/-- A C array of two elements (`fds[2]`, `coap_replies[2]`). -/
structure Arr2 (α : Type) where
  e0 : α
  e1 : α
deriving DecidableEq, Repr

/-- Read `a[i]`. -/
def Arr2.get {α : Type} (a : Arr2 α) : Fin 2 → α
  | 0 => a.e0
  | 1 => a.e1

/-- Write `a[i] = v`. -/
def Arr2.set {α : Type} (a : Arr2 α) : Fin 2 → α → Arr2 α
  | 0, v => { a with e0 := v }
  | 1, v => { a with e1 := v }

/-- The fields of `struct zsock_pollfd`. -/
structure zsock_pollfd where
  fd : Int
  events : Nat
  revents : Nat
deriving DecidableEq, Repr

/-- Modelled from the spec: a CorrelationSlot (`struct coap_reply`, declared
outside `main.c`) with its request token, expected-response predicate and
occupied flag. -/
structure coap_reply where
  token : Nat
  predicate : Nat
  occupied : Bool
deriving DecidableEq, Repr

/-- Modelled from the spec: `coap_reply_clear` (declared outside `main.c`)
leaves the slot cleared, i.e. unoccupied with no token and no predicate. -/
def coap_reply_clear (_r : coap_reply) : coap_reply :=
  { token := 0, predicate := 0, occupied := false }

/-- The one field of `struct golioth_client` that `main.c` reads: `sock`. -/
structure golioth_client where
  sock : Int
deriving DecidableEq, Repr

/-- A `struct k_timer` as far as `main.c` uses it: when armed, the uptime at
which it expires and its period (`0` for a one-shot timer). -/
structure k_timer_armed where
  deadline : Nat
  period : Nat
deriving DecidableEq, Repr

/-- Calls made by the body of the loop of `golioth_main`, in program order. -/
inductive Call where
  | connect_client
  | k_sleep (ms : Nat)
  | eventfd_read
  | k_timer_start (duration period : Nat)
  | zsock_poll
  | golioth_disconnect
  | golioth_process_rx
deriving DecidableEq, Repr

/-- The `LOG_*` lines of `main.c` that the loop and the timeout work emit. -/
inductive Log where
  | inf_starting_connect
  | err_failed_to_connect (err : Int)
  | wrn_failed_to_connect (err : Int)
  | inf_client_connected
  | err_error_in_poll (errno : Int)
  | inf_reconnect_request
  | err_failed_to_receive (err : Int)
  | err_rx_client_timeout
deriving DecidableEq, Repr

/-- Where the thread running `golioth_main` stands in its `while (true)`. -/
inductive PC where
  /-- Line 224: about to test `client->sock < 0`. -/
  | top
  /-- Line 226: inside `connect_client`, waiting for `golioth_connect`. -/
  | connecting
  /-- Line 229: inside `k_sleep(RX_TIMEOUT)`, which returns at `wake` or later. -/
  | sleeping (wake : Nat)
  /-- Line 234: `connect_client` returned 0, about to flush the eventfd. -/
  | flush
  /-- Line 238: about to start the timer. -/
  | arm
  /-- Line 243: blocked in `zsock_poll(fds, 2, -1)`. -/
  | poll
  /-- Line 249: `zsock_poll` returned a non-negative value. -/
  | dispatch
  /-- Line 253: reconnect eventfd read, about to call `golioth_disconnect`. -/
  | teardown
  /-- Line 261: inside `golioth_process_rx`. -/
  | rx
  /-- After the `break` of line 246: the loop has ended. -/
  | exited
deriving DecidableEq, Repr

/-- The globals of `main.c`, the locals of `golioth_main`, and the kernel
objects they refer to. -/
structure State where
  /-- Program point of the loop thread. -/
  pc : PC
  /-- The global `g_client`, reached through `client`. -/
  client : golioth_client
  /-- The global `fds[2]`. -/
  fds : Arr2 zsock_pollfd
  /-- The global `coap_replies[2]`. -/
  coap_replies : Arr2 coap_reply
  /-- Local `eventfd_value` of `golioth_main`. -/
  eventfd_value : Nat
  /-- Local `err` of `golioth_main`. -/
  err : Int
  /-- Counter of the eventfd that `fds[POLLFD_EVENT_RECONNECT].fd` names. -/
  reconnect_eventfd : Nat
  /-- The timer `rx_timeout`: `none` when stopped. -/
  rx_timeout : Option k_timer_armed
  /-- Whether `rx_timeout_work` is submitted and has not run yet. -/
  rx_timeout_work : Bool
  /-- Kernel uptime in milliseconds. -/
  now : Nat
  /-- Calls made so far by the loop body (ghost). -/
  calls : List Call
  /-- Log lines emitted so far (ghost). -/
  logs : List Log
deriving DecidableEq, Repr

/-- What the environment answers to the external call the loop is blocked in:
the return value of `golioth_connect`, `zsock_poll` or `golioth_process_rx`,
the socket handle `golioth_connect` leaves in `client->sock`, the `revents`
`zsock_poll` reports for the socket, `errno` after a failed `zsock_poll`, and
the correlation table as the receive path (`golioth_on_message`, which hands
the packet to `coap_response_received`) leaves it. -/
structure Resp where
  ret : Int
  sock : Int
  revents : Nat
  errno : Int
  replies : Arr2 coap_reply
deriving DecidableEq, Repr

/-! ## Kernel and library primitives used by `main.c` -/

/-- Modelled from the spec: raising the Reconnect Signal never blocks and
coalesces.  The signal is an eventfd in counter mode created non-blocking
(`eventfd(0, EFD_NONBLOCK)`): a write adds to the 64-bit counter, and is
refused (`EAGAIN`, counter unchanged) when the sum would pass `2^64 - 2`. -/
def eventfd_write (counter value : Nat) : Nat :=
  if counter + value < 2 ^ 64 - 1 then counter + value else counter

/-- Modelled from the spec: consuming the Reconnect Signal drains the pending
state completely.  A read of the non-blocking eventfd returns the counter and
resets it to zero; with a zero counter it fails (`EAGAIN`) and the caller's
buffer keeps its value.  Result: new counter and new `*value`. -/
def eventfd_read (counter value : Nat) : Nat × Nat :=
  if 0 < counter then (0, counter) else (counter, value)

/-- Modelled from the spec: `arm(duration)` (re)starts the countdown from now,
replacing any previous deadline; Zephyr's `k_timer_start(timer, duration,
period)`. -/
def k_timer_start (now duration period : Nat) : Option k_timer_armed :=
  some { deadline := now + duration, period := period }

/-- Modelled from the spec: `golioth_connect` (library code outside `src/`)
performs the handshake; the environment decides its return value and the
socket handle it leaves in the client. -/
def golioth_connect (_c : golioth_client) (r : Resp) : golioth_client × Int :=
  ({ sock := r.sock }, r.ret)

/-- Modelled from the spec: `golioth_disconnect` (library code outside `src/`)
tears down the socket, after which the socket handle is absent
(`client->sock = -1`). -/
def golioth_disconnect (_c : golioth_client) : golioth_client :=
  { sock := -1 }

/-- Modelled from the spec: `golioth_process_rx` (library code outside `src/`)
reads and processes inbound data on the socket; it does not own the socket
handle, and its receive path may consume a matching correlation slot.  The
environment decides the table it leaves and its return value. -/
def golioth_process_rx (_replies : Arr2 coap_reply) (r : Resp) : Arr2 coap_reply × Int :=
  (r.replies, r.ret)

/-! ## The functions of `main.c` -/

/-- Lines 52-55: `eventfd_write(fds[POLLFD_EVENT_RECONNECT].fd, 1)`. -/
def client_request_reconnect (s : State) : State :=
  { s with reconnect_eventfd := eventfd_write s.reconnect_eventfd 1 }

/-- Lines 57-62: the work handler logs and requests a reconnect. -/
def client_rx_timeout_work (s : State) : State :=
  client_request_reconnect { s with logs := s.logs ++ [Log.err_rx_client_timeout] }

/-- Lines 66-69: the expiry function of `rx_timeout` submits `rx_timeout_work`
(submitting a work item that is already pending changes nothing). -/
def client_rx_timeout (s : State) : State :=
  { s with rx_timeout_work := true }

/-- Lines 180-199: `connect_client`, given what `golioth_connect` answers.
Returns the new state and the `int` result. -/
def connect_client (s : State) (r : Resp) : State × Int :=
  let (c, err) := golioth_connect s.client r
  let s := { s with client := c }
  if err ≠ 0 then
    ({ s with logs := s.logs ++ [Log.err_failed_to_connect err] }, err)
  else
    let f := s.fds.get POLLFD_SOCKET
    let s := { s with fds := s.fds.set POLLFD_SOCKET { f with fd := s.client.sock } }
    let f := s.fds.get POLLFD_SOCKET
    let s := { s with fds := s.fds.set POLLFD_SOCKET { f with events := ZSOCK_POLLIN } }
    let s := ([0, 1] : List (Fin 2)).foldl
      (fun s i =>
        { s with coap_replies := s.coap_replies.set i (coap_reply_clear (s.coap_replies.get i)) })
      s
    (s, 0)

/-- Modelled from the spec: the wait primitive `zsock_poll(fds, 2, -1)` on
success.  It waits without timeout on both sources; the Reconnect Signal is
ready exactly when its eventfd counter is non-zero and `ZSOCK_POLLIN` was asked
for, and the environment reports the socket's `revents`. -/
def zsock_poll_revents (s : State) (r : Resp) : Arr2 zsock_pollfd :=
  let f0 := s.fds.get POLLFD_EVENT_RECONNECT
  let fds := s.fds.set POLLFD_EVENT_RECONNECT
    { f0 with revents :=
        if 0 < s.reconnect_eventfd ∧ f0.events &&& ZSOCK_POLLIN ≠ 0 then ZSOCK_POLLIN else 0 }
  fds.set POLLFD_SOCKET { (fds.get POLLFD_SOCKET) with revents := r.revents }

/-- Lines 223-267: one step of the thread running the loop of `golioth_main`.
`r` is the answer of the external call the thread is blocked in, if any. -/
def golioth_main_step (s : State) (r : Resp) : State :=
  match s.pc with
  | PC.top =>
    if s.client.sock < 0 then
      { s with pc := PC.connecting,
               logs := s.logs ++ [Log.inf_starting_connect],
               calls := s.calls ++ [Call.connect_client] }
    else
      { s with pc := PC.poll, calls := s.calls ++ [Call.zsock_poll] }
  | PC.connecting =>
    let (s, err) := connect_client s r
    let s := { s with err := err }
    if err ≠ 0 then
      { s with pc := PC.sleeping (s.now + RX_TIMEOUT),
               logs := s.logs ++ [Log.wrn_failed_to_connect err],
               calls := s.calls ++ [Call.k_sleep RX_TIMEOUT] }
    else
      { s with pc := PC.flush }
  | PC.sleeping wake =>
    { s with pc := PC.top, now := max s.now wake }
  | PC.flush =>
    let (c, v) := eventfd_read s.reconnect_eventfd s.eventfd_value
    { s with pc := PC.arm, reconnect_eventfd := c, eventfd_value := v,
             calls := s.calls ++ [Call.eventfd_read] }
  | PC.arm =>
    { s with pc := PC.poll,
             rx_timeout := k_timer_start s.now RX_TIMEOUT K_NO_WAIT,
             logs := s.logs ++ [Log.inf_client_connected],
             calls := s.calls ++ [Call.k_timer_start RX_TIMEOUT K_NO_WAIT, Call.zsock_poll] }
  | PC.poll =>
    if r.ret < 0 then
      { s with pc := PC.exited, logs := s.logs ++ [Log.err_error_in_poll r.errno] }
    else
      let fds := zsock_poll_revents s r
      if (fds.get POLLFD_EVENT_RECONNECT).revents = 0 ∧ (fds.get POLLFD_SOCKET).revents = 0 then
        s
      else
        { s with pc := PC.dispatch, fds := fds }
  | PC.dispatch =>
    if (s.fds.get POLLFD_EVENT_RECONNECT).revents ≠ 0 then
      let (c, v) := eventfd_read s.reconnect_eventfd s.eventfd_value
      { s with pc := PC.teardown, reconnect_eventfd := c, eventfd_value := v,
               logs := s.logs ++ [Log.inf_reconnect_request],
               calls := s.calls ++ [Call.eventfd_read] }
    else if (s.fds.get POLLFD_SOCKET).revents ≠ 0 then
      { s with pc := PC.rx,
               rx_timeout := k_timer_start s.now RX_TIMEOUT K_NO_WAIT,
               calls := s.calls ++ [Call.k_timer_start RX_TIMEOUT K_NO_WAIT,
                                    Call.golioth_process_rx] }
    else
      { s with pc := PC.top }
  | PC.teardown =>
    { s with pc := PC.top, client := golioth_disconnect s.client,
             calls := s.calls ++ [Call.golioth_disconnect] }
  | PC.rx =>
    let (t, err) := golioth_process_rx s.coap_replies r
    let s := { s with coap_replies := t, err := err }
    if err ≠ 0 then
      { s with pc := PC.top, client := golioth_disconnect s.client,
               logs := s.logs ++ [Log.err_failed_to_receive err],
               calls := s.calls ++ [Call.golioth_disconnect] }
    else
      { s with pc := PC.top }
  | PC.exited => s

/-! ## The other execution contexts -/

/-- What happens outside the loop thread. -/
inductive EnvEvent where
  /-- Time passes. -/
  | elapse (ms : Nat)
  /-- The timer service expires `rx_timeout` if it is due. -/
  | timer_expiry
  /-- The system work queue runs `rx_timeout_work` if it is pending. -/
  | work_run
deriving DecidableEq, Repr

/-- One event of the other execution contexts.  An event that is not enabled
(a timer that is stopped or not due, a work item that is not pending) changes
nothing.  An expired timer with a zero period stops (one-shot). -/
def env_step (s : State) : EnvEvent → State
  | EnvEvent.elapse ms => { s with now := s.now + ms }
  | EnvEvent.timer_expiry =>
    match s.rx_timeout with
    | none => s
    | some t =>
      if t.deadline ≤ s.now then
        let next : Option k_timer_armed :=
          if t.period = 0 then none
          else some { deadline := t.deadline + t.period, period := t.period }
        client_rx_timeout { s with rx_timeout := next }
      else s
  | EnvEvent.work_run =>
    if s.rx_timeout_work then client_rx_timeout_work { s with rx_timeout_work := false }
    else s

/-- A run of events of the other contexts. -/
def env_run (s : State) (es : List EnvEvent) : State :=
  es.foldl env_step s

/-- An event of the whole system. -/
inductive Event where
  /-- The loop thread takes its next step. -/
  | loop (r : Resp)
  /-- Another execution context acts. -/
  | env (e : EnvEvent)
deriving DecidableEq, Repr

/-- One event of the whole system. -/
def step (s : State) : Event → State
  | Event.loop r => golioth_main_step s r
  | Event.env e => env_step s e

/-- A run of the whole system. -/
def run (s : State) (es : List Event) : State :=
  es.foldl step s

/-- The state in which `golioth_main` enters its loop after a successful
`initialize_client` (lines 116-178): `golioth_init` has left no socket, the
reconnect eventfd was created with counter 0 as `fds[POLLFD_EVENT_RECONNECT]`
with `events = ZSOCK_POLLIN`, the statics are zero and the timer is stopped. -/
def initial (efd : Int) : State :=
  { pc := PC.top
    client := { sock := -1 }
    fds := { e0 := { fd := efd, events := ZSOCK_POLLIN, revents := 0 },
             e1 := { fd := 0, events := 0, revents := 0 } }
    coap_replies := { e0 := { token := 0, predicate := 0, occupied := false },
                      e1 := { token := 0, predicate := 0, occupied := false } }
    eventfd_value := 0
    err := 0
    reconnect_eventfd := 0
    rx_timeout := none
    rx_timeout_work := false
    now := 0
    calls := []
    logs := [] }

/-- A default answer, for steps in which the thread is not blocked in a call. -/
def Resp.none : Resp :=
  { ret := 0, sock := 0, revents := 0, errno := 0,
    replies := { e0 := { token := 0, predicate := 0, occupied := false },
                 e1 := { token := 0, predicate := 0, occupied := false } } }

/-- The schedule of one pass of the loop through a connect attempt that
fails: what the other contexts do before the test of `client->sock`, while
`golioth_connect` runs and while `k_sleep` runs, and the answer of
`golioth_connect`. -/
structure ConnectAttempt where
  before : List EnvEvent
  during : List EnvEvent
  asleep : List EnvEvent
  answer : Resp

/-- Three steps of the loop thread (test and enter `connect_client`, return of
`golioth_connect`, return of `k_sleep`) interleaved with the other contexts as
the schedule says. -/
def connect_attempt (s : State) (a : ConnectAttempt) : State :=
  let t1 := golioth_main_step (env_run s a.before) a.answer
  let t2 := golioth_main_step (env_run t1 a.during) a.answer
  golioth_main_step (env_run t2 a.asleep) a.answer

/-! ## Concrete states and schedules used in the examples -/

/-- The loop after a first connection, blocked in `zsock_poll`. -/
def connected_waiting : State :=
  run (initial 7)
    [Event.loop Resp.none, Event.loop { Resp.none with sock := 3 }, Event.loop Resp.none,
     Event.loop Resp.none]

/-- The state `connected_waiting` once `zsock_poll` has reported the socket. -/
def socket_ready : State :=
  golioth_main_step connected_waiting { Resp.none with ret := 1, revents := ZSOCK_POLLIN }

/-- The state `connected_waiting` after 30 s without traffic: the timer has
expired, the work has requested a reconnect, and `zsock_poll` returns with
both the reconnect eventfd and the socket ready. -/
def both_ready : State :=
  golioth_main_step
    (env_run connected_waiting
      [EnvEvent.elapse 30000, EnvEvent.timer_expiry, EnvEvent.work_run])
    { Resp.none with ret := 2, revents := ZSOCK_POLLIN }

/-- A state inside `connect_client` with both correlation slots occupied. -/
def reconnecting_with_pending : State :=
  { initial 7 with
    pc := PC.connecting
    coap_replies := { e0 := { token := 17, predicate := 1, occupied := true },
                      e1 := { token := 18, predicate := 2, occupied := true } } }

/-- A handshake that fails with `-ENETUNREACH`-like `-5` and leaves no socket. -/
def handshake_fails : ConnectAttempt :=
  { before := [], during := [EnvEvent.elapse 1000], asleep := [EnvEvent.elapse 30000],
    answer := { Resp.none with ret := -5, sock := -1 } }

/-- The loop after a first connection whose first inbound packet could not be
processed: connect, flush, timer start, `zsock_poll` reports the socket, timer
restart, `golioth_process_rx` returns `-5`, `golioth_disconnect`. -/
def receive_failure_path : State :=
  run socket_ready [Event.loop Resp.none, Event.loop { Resp.none with ret := -5 }]

/-- The loop back inside `connect_client` after `receive_failure_path`, while
the timer restarted before the failed receive is still running. -/
def reconnecting : State :=
  golioth_main_step receive_failure_path Resp.none

/-- The timer expires during the handshake and the work queue runs
`client_rx_timeout_work`, which calls `client_request_reconnect`. -/
def request_during_connect : State :=
  env_run reconnecting [EnvEvent.elapse 30000, EnvEvent.timer_expiry, EnvEvent.work_run]

/-- The handshake then succeeds and the loop reaches its next `zsock_poll`,
which returns when the socket has data. -/
def after_request_during_connect : State :=
  run request_during_connect
    [Event.loop { Resp.none with sock := 4 }, Event.loop Resp.none, Event.loop Resp.none,
     Event.loop { Resp.none with ret := 1, revents := ZSOCK_POLLIN }]

/-- The loop back inside `connect_client` after the teardown that follows
`both_ready`: the reconnect eventfd has just been read (the signal is
consumed), `golioth_disconnect` has run, and the next iteration has entered
`connect_client`. -/
def reconnecting_after_teardown : State :=
  run both_ready [Event.loop Resp.none, Event.loop Resp.none, Event.loop Resp.none]

/-- Three calls of `client_request_reconnect` made during that handshake. -/
def three_requests_during_connect : State :=
  client_request_reconnect^[3] reconnecting_after_teardown

/-- The handshake then succeeds; the loop flushes, starts the timer and reaches
its next `zsock_poll`, which returns when the socket has data. -/
def after_three_requests : State :=
  run three_requests_during_connect
    [Event.loop { Resp.none with sock := 4 }, Event.loop Resp.none, Event.loop Resp.none,
     Event.loop { Resp.none with ret := 1, revents := ZSOCK_POLLIN }]

/-- Two states that agree in everything but the counter of the reconnect
eventfd and the scratch local `eventfd_value` (which `main.c` never reads). -/
def agree_but_signal (a b : State) : Prop :=
  { a with reconnect_eventfd := 0, eventfd_value := 0 }
    = { b with reconnect_eventfd := 0, eventfd_value := 0 }

instance (a b : State) : Decidable (agree_but_signal a b) := by
  unfold agree_but_signal
  infer_instance

/-! ## Frame lemmas: what the other contexts cannot touch -/

theorem env_step_frame (s : State) (e : EnvEvent) :
    (env_step s e).pc = s.pc ∧ (env_step s e).client = s.client ∧
    (env_step s e).fds = s.fds ∧ (env_step s e).coap_replies = s.coap_replies ∧
    (env_step s e).eventfd_value = s.eventfd_value ∧ (env_step s e).err = s.err ∧
    (env_step s e).calls = s.calls := by
  cases e with
  | elapse ms => simp [env_step]
  | timer_expiry =>
    simp only [env_step]
    split
    · simp
    · split <;> simp [client_rx_timeout]
  | work_run =>
    simp only [env_step]
    split <;> simp [client_rx_timeout_work, client_request_reconnect]

theorem env_run_frame (es : List EnvEvent) (s : State) :
    (env_run s es).pc = s.pc ∧ (env_run s es).client = s.client ∧
    (env_run s es).fds = s.fds ∧ (env_run s es).coap_replies = s.coap_replies ∧
    (env_run s es).eventfd_value = s.eventfd_value ∧ (env_run s es).err = s.err ∧
    (env_run s es).calls = s.calls := by
  induction es generalizing s with
  | nil => simp [env_run]
  | cons e es ih =>
    have h1 := env_step_frame s e
    have h2 := ih (env_step s e)
    simp only [env_run, List.foldl_cons] at h2 ⊢
    obtain ⟨a1, a2, a3, a4, a5, a6, a7⟩ := h1
    obtain ⟨b1, b2, b3, b4, b5, b6, b7⟩ := h2
    exact ⟨b1.trans a1, b2.trans a2, b3.trans a3, b4.trans a4, b5.trans a5, b6.trans a6,
      b7.trans a7⟩

@[simp] theorem env_run_pc (s : State) (es : List EnvEvent) : (env_run s es).pc = s.pc :=
  (env_run_frame es s).1

@[simp] theorem env_run_client (s : State) (es : List EnvEvent) :
    (env_run s es).client = s.client :=
  (env_run_frame es s).2.1

@[simp] theorem env_run_fds (s : State) (es : List EnvEvent) : (env_run s es).fds = s.fds :=
  (env_run_frame es s).2.2.1

@[simp] theorem env_run_coap_replies (s : State) (es : List EnvEvent) :
    (env_run s es).coap_replies = s.coap_replies :=
  (env_run_frame es s).2.2.2.1

@[simp] theorem env_run_eventfd_value (s : State) (es : List EnvEvent) :
    (env_run s es).eventfd_value = s.eventfd_value :=
  (env_run_frame es s).2.2.2.2.1

@[simp] theorem env_run_err (s : State) (es : List EnvEvent) : (env_run s es).err = s.err :=
  (env_run_frame es s).2.2.2.2.2.1

@[simp] theorem env_run_calls (s : State) (es : List EnvEvent) :
    (env_run s es).calls = s.calls :=
  (env_run_frame es s).2.2.2.2.2.2

/-- Time never runs backwards in the other contexts. -/
theorem env_run_now (es : List EnvEvent) (s : State) : s.now ≤ (env_run s es).now := by
  induction es generalizing s with
  | nil => simp [env_run]
  | cons e es ih =>
    have h2 := ih (env_step s e)
    simp only [env_run, List.foldl_cons] at h2 ⊢
    refine le_trans ?_ h2
    cases e with
    | elapse ms => simp [env_step]
    | timer_expiry =>
      simp only [env_step]
      split
      · simp
      · split <;> simp [client_rx_timeout]
    | work_run =>
      simp only [env_step]
      split <;> simp [client_rx_timeout_work, client_request_reconnect]

/-! ## Step equations of the loop thread -/

theorem dispatch_reconnect (t : State) (r : Resp) (h1 : t.pc = PC.dispatch)
    (h2 : (t.fds.get POLLFD_EVENT_RECONNECT).revents ≠ 0) :
    golioth_main_step t r =
      { t with pc := PC.teardown,
               reconnect_eventfd := (eventfd_read t.reconnect_eventfd t.eventfd_value).1,
               eventfd_value := (eventfd_read t.reconnect_eventfd t.eventfd_value).2,
               logs := t.logs ++ [Log.inf_reconnect_request],
               calls := t.calls ++ [Call.eventfd_read] } := by
  simp [golioth_main_step, h1, h2]

theorem teardown_eq (t : State) (r : Resp) (h1 : t.pc = PC.teardown) :
    golioth_main_step t r =
      { t with pc := PC.top, client := golioth_disconnect t.client,
               calls := t.calls ++ [Call.golioth_disconnect] } := by
  simp [golioth_main_step, h1]

theorem dispatch_socket (t : State) (r : Resp) (h1 : t.pc = PC.dispatch)
    (h2 : (t.fds.get POLLFD_EVENT_RECONNECT).revents = 0)
    (h3 : (t.fds.get POLLFD_SOCKET).revents ≠ 0) :
    golioth_main_step t r =
      { t with pc := PC.rx,
               rx_timeout := k_timer_start t.now RX_TIMEOUT K_NO_WAIT,
               calls := t.calls ++ [Call.k_timer_start RX_TIMEOUT K_NO_WAIT,
                                    Call.golioth_process_rx] } := by
  simp [golioth_main_step, h1, h2, h3]

theorem rx_ok (t : State) (r : Resp) (h1 : t.pc = PC.rx) (h2 : r.ret = 0) :
    golioth_main_step t r = { t with pc := PC.top, coap_replies := r.replies, err := 0 } := by
  simp [golioth_main_step, h1, h2, golioth_process_rx]

theorem rx_fail (t : State) (r : Resp) (h1 : t.pc = PC.rx) (h2 : r.ret ≠ 0) :
    golioth_main_step t r =
      { t with pc := PC.top, coap_replies := r.replies, err := r.ret,
               client := golioth_disconnect t.client,
               logs := t.logs ++ [Log.err_failed_to_receive r.ret],
               calls := t.calls ++ [Call.golioth_disconnect] } := by
  simp [golioth_main_step, h1, h2, golioth_process_rx]

theorem top_disconnected (t : State) (r : Resp) (h1 : t.pc = PC.top) (h2 : t.client.sock < 0) :
    golioth_main_step t r =
      { t with pc := PC.connecting,
               logs := t.logs ++ [Log.inf_starting_connect],
               calls := t.calls ++ [Call.connect_client] } := by
  simp [golioth_main_step, h1, h2]

theorem top_connected (t : State) (r : Resp) (h1 : t.pc = PC.top) (h2 : 0 ≤ t.client.sock) :
    golioth_main_step t r = { t with pc := PC.poll, calls := t.calls ++ [Call.zsock_poll] } := by
  simp [golioth_main_step, h1, not_lt.mpr h2]

theorem connecting_fail (t : State) (r : Resp) (h1 : t.pc = PC.connecting) (h2 : r.ret ≠ 0) :
    golioth_main_step t r =
      { t with pc := PC.sleeping (t.now + RX_TIMEOUT),
               client := { sock := r.sock }, err := r.ret,
               logs := t.logs ++ [Log.err_failed_to_connect r.ret,
                                  Log.wrn_failed_to_connect r.ret],
               calls := t.calls ++ [Call.k_sleep RX_TIMEOUT] } := by
  simp [golioth_main_step, h1, h2, connect_client, golioth_connect]

theorem connecting_ok (t : State) (r : Resp) (h1 : t.pc = PC.connecting) (h2 : r.ret = 0) :
    golioth_main_step t r =
      { t with pc := PC.flush, client := { sock := r.sock }, err := 0,
               fds := { t.fds with e1 := { fd := r.sock, events := ZSOCK_POLLIN,
                                           revents := t.fds.e1.revents } },
               coap_replies := { e0 := { token := 0, predicate := 0, occupied := false },
                                 e1 := { token := 0, predicate := 0, occupied := false } } } := by
  simp [golioth_main_step, h1, h2, connect_client, golioth_connect, Arr2.set, Arr2.get,
    coap_reply_clear]

theorem sleeping_eq (t : State) (r : Resp) (w : Nat) (h1 : t.pc = PC.sleeping w) :
    golioth_main_step t r = { t with pc := PC.top, now := max t.now w } := by
  simp [golioth_main_step, h1]

theorem flush_eq (t : State) (r : Resp) (h1 : t.pc = PC.flush) :
    golioth_main_step t r =
      { t with pc := PC.arm,
               reconnect_eventfd := (eventfd_read t.reconnect_eventfd t.eventfd_value).1,
               eventfd_value := (eventfd_read t.reconnect_eventfd t.eventfd_value).2,
               calls := t.calls ++ [Call.eventfd_read] } := by
  simp [golioth_main_step, h1]

theorem arm_eq (t : State) (r : Resp) (h1 : t.pc = PC.arm) :
    golioth_main_step t r =
      { t with pc := PC.poll,
               rx_timeout := k_timer_start t.now RX_TIMEOUT K_NO_WAIT,
               logs := t.logs ++ [Log.inf_client_connected],
               calls := t.calls ++ [Call.k_timer_start RX_TIMEOUT K_NO_WAIT,
                                    Call.zsock_poll] } := by
  simp [golioth_main_step, h1]

theorem poll_fail (t : State) (r : Resp) (h1 : t.pc = PC.poll) (h2 : r.ret < 0) :
    golioth_main_step t r =
      { t with pc := PC.exited, logs := t.logs ++ [Log.err_error_in_poll r.errno] } := by
  simp [golioth_main_step, h1, h2]

theorem exited_eq (t : State) (r : Resp) (h1 : t.pc = PC.exited) :
    golioth_main_step t r = t := by
  simp [golioth_main_step, h1]

theorem eventfd_read_drains (c v : Nat) : (eventfd_read c v).1 = 0 := by
  simp only [eventfd_read]
  split <;> simp_all

/-! ## The dispatch after `zsock_poll` -/

/-- C1: in an iteration in which `zsock_poll` returned a non-negative value
(the thread stands at the dispatch) and `fds[POLLFD_EVENT_RECONNECT].revents`
is non-zero, whatever `fds[POLLFD_SOCKET].revents` is and whatever the other
contexts do in between, the loop reads the reconnect eventfd (draining it),
calls `golioth_disconnect` and continues at the top of the loop; it makes no
other call, so neither `golioth_process_rx` nor `k_timer_start`, it leaves the
socket's `revents` untouched, and by itself it leaves `rx_timeout` as it was. -/
theorem reconnect_dispatch_drains_only_signal (s : State) (e1 e2 : List EnvEvent)
    (r1 r2 : Resp) (hpc : s.pc = PC.dispatch)
    (hrev : (s.fds.get POLLFD_EVENT_RECONNECT).revents ≠ 0) :
    let t1 := golioth_main_step (env_run s e1) r1
    let t2 := golioth_main_step (env_run t1 e2) r2
    t1.pc = PC.teardown ∧ t1.reconnect_eventfd = 0 ∧
    t2.pc = PC.top ∧
    t2.calls = s.calls ++ [Call.eventfd_read, Call.golioth_disconnect] ∧
    t2.client.sock = -1 ∧ t2.fds = s.fds ∧ t2.coap_replies = s.coap_replies ∧
    (golioth_main_step (golioth_main_step s r1) r2).rx_timeout = s.rx_timeout := by
  intro t1 t2
  have h1 : t1 = _ := dispatch_reconnect (env_run s e1) r1 (by simp [hpc]) (by simpa using hrev)
  have h2 : t2 = _ := teardown_eq (env_run t1 e2) r2 (by simp [h1])
  have h0 := dispatch_reconnect s r1 hpc hrev
  rw [h0, teardown_eq _ r2 rfl, h2, h1]
  refine ⟨rfl, ?_, rfl, ?_, ?_, ?_, ?_, ?_⟩
  · simp only [eventfd_read]
    split <;> simp_all
  · simp
  · simp [golioth_disconnect]
  · simp
  · simp
  · simp

theorem reconnect_dispatch_drains_only_signal_witness :
    both_ready.pc = PC.dispatch ∧
    (both_ready.fds.get POLLFD_EVENT_RECONNECT).revents ≠ 0 ∧
    (both_ready.fds.get POLLFD_SOCKET).revents ≠ 0 ∧
    (golioth_main_step (env_run (golioth_main_step (env_run both_ready []) Resp.none) [])
      Resp.none).calls = both_ready.calls ++ [Call.eventfd_read, Call.golioth_disconnect] :=
  ⟨by decide, by decide, by decide,
    (reconnect_dispatch_drains_only_signal both_ready [] [] Resp.none Resp.none
      (by decide) (by decide)).2.2.2.1⟩

/-- C8: in an iteration in which `zsock_poll` succeeded (the thread stands at
the dispatch), the reconnect source is not ready and
`fds[POLLFD_SOCKET].revents` is non-zero, the loop restarts `rx_timeout` with
a fresh full `RX_TIMEOUT` and only then calls `golioth_process_rx`.  When that
returns 0 the client keeps its socket and `golioth_disconnect` is not called,
so the next iteration waits in `zsock_poll` again; when it returns non-zero,
`golioth_disconnect` is called, the socket is gone, and the next iteration
enters `connect_client`. -/
theorem socket_dispatch_processes_rx (s : State) (e1 e2 e3 : List EnvEvent)
    (r1 r2 r3 : Resp) (hpc : s.pc = PC.dispatch)
    (hrec : (s.fds.get POLLFD_EVENT_RECONNECT).revents = 0)
    (hsock : (s.fds.get POLLFD_SOCKET).revents ≠ 0) :
    let t1 := golioth_main_step (env_run s e1) r1
    let t2 := golioth_main_step (env_run t1 e2) r2
    let t3 := golioth_main_step (env_run t2 e3) r3
    t1.pc = PC.rx ∧
    t1.calls = s.calls ++ [Call.k_timer_start RX_TIMEOUT K_NO_WAIT, Call.golioth_process_rx] ∧
    t1.rx_timeout = some { deadline := t1.now + RX_TIMEOUT, period := 0 } ∧
    t2.pc = PC.top ∧
    (r2.ret = 0 →
      t2.client = s.client ∧ t2.calls = t1.calls ∧
      (0 ≤ s.client.sock → t3.pc = PC.poll ∧ t3.calls = t1.calls ++ [Call.zsock_poll])) ∧
    (r2.ret ≠ 0 →
      t2.client.sock = -1 ∧ t2.calls = t1.calls ++ [Call.golioth_disconnect] ∧
      t3.pc = PC.connecting ∧
      t3.calls = t1.calls ++ [Call.golioth_disconnect, Call.connect_client]) := by
  intro t1 t2 t3
  have h1 : t1 = _ :=
    dispatch_socket (env_run s e1) r1 (by simp [hpc]) (by simpa using hrec) (by simpa using hsock)
  have hpc2 : (env_run t1 e2).pc = PC.rx := by simp [h1]
  refine ⟨by simp [h1], by simp [h1], by simp [h1, k_timer_start, K_NO_WAIT], ?_, ?_, ?_⟩
  · by_cases hr : r2.ret = 0
    · have h2 : t2 = _ := rx_ok (env_run t1 e2) r2 hpc2 hr
      simp [h2]
    · have h2 : t2 = _ := rx_fail (env_run t1 e2) r2 hpc2 hr
      simp [h2]
  · intro hr
    have h2 : t2 = _ := rx_ok (env_run t1 e2) r2 hpc2 hr
    refine ⟨by simp [h2, h1], by simp [h2], ?_⟩
    intro hs
    have h3 : t3 = _ := top_connected (env_run t2 e3) r3 (by simp [h2]) (by simpa [h2, h1] using hs)
    simp [h3, h2]
  · intro hr
    have h2 : t2 = _ := rx_fail (env_run t1 e2) r2 hpc2 hr
    have h3 : t3 = _ :=
      top_disconnected (env_run t2 e3) r3 (by simp [h2]) (by simp [h2, golioth_disconnect])
    refine ⟨by simp [h2, golioth_disconnect], by simp [h2], by simp [h3], by simp [h3, h2]⟩

theorem socket_dispatch_processes_rx_witness :
    socket_ready.pc = PC.dispatch ∧
    (socket_ready.fds.get POLLFD_EVENT_RECONNECT).revents = 0 ∧
    (socket_ready.fds.get POLLFD_SOCKET).revents ≠ 0 ∧
    (golioth_main_step (env_run socket_ready []) Resp.none).calls
      = socket_ready.calls ++ [Call.k_timer_start RX_TIMEOUT K_NO_WAIT, Call.golioth_process_rx] :=
  ⟨by decide, by decide, by decide,
    (socket_dispatch_processes_rx socket_ready [] [] [] Resp.none Resp.none Resp.none
      (by decide) (by decide) (by decide)).2.1⟩

/-! ## Connecting -/

/-- C5: whatever the correlation table held, when `golioth_connect` succeeds
`connect_client` returns 0, leaves each of the 2 slots of `coap_replies`
cleared (`coap_reply_clear` applied to index 0 and index 1), and registers the
new socket: `fds[POLLFD_SOCKET].fd` is `client->sock` and
`fds[POLLFD_SOCKET].events` is `ZSOCK_POLLIN`. -/
theorem connect_client_clears_and_registers (s : State) (r : Resp) (hok : r.ret = 0) :
    (connect_client s r).2 = 0 ∧
    (∀ i : Fin 2, (connect_client s r).1.coap_replies.get i
        = coap_reply_clear (s.coap_replies.get i) ∧
      ((connect_client s r).1.coap_replies.get i).occupied = false) ∧
    ((connect_client s r).1.fds.get POLLFD_SOCKET).fd = (connect_client s r).1.client.sock ∧
    ((connect_client s r).1.fds.get POLLFD_SOCKET).events = ZSOCK_POLLIN ∧
    (connect_client s r).1.client.sock = r.sock ∧
    (connect_client s r).1.fds.get POLLFD_EVENT_RECONNECT = s.fds.get POLLFD_EVENT_RECONNECT := by
  refine ⟨by simp [connect_client, golioth_connect, hok], ?_,
    by simp [connect_client, golioth_connect, hok, Arr2.set, Arr2.get],
    by simp [connect_client, golioth_connect, hok, Arr2.set, Arr2.get],
    by simp [connect_client, golioth_connect, hok],
    by simp [connect_client, golioth_connect, hok, Arr2.set, Arr2.get]⟩
  intro i
  fin_cases i <;>
    simp [connect_client, golioth_connect, hok, Arr2.set, Arr2.get, coap_reply_clear]

theorem connect_client_clears_and_registers_witness :
    ({ Resp.none with sock := 3 } : Resp).ret = 0 ∧
    (connect_client reconnecting_with_pending { Resp.none with sock := 3 }).2 = 0 ∧
    (connect_client reconnecting_with_pending { Resp.none with sock := 3 }).1.coap_replies
      = { e0 := { token := 0, predicate := 0, occupied := false },
          e1 := { token := 0, predicate := 0, occupied := false } } :=
  ⟨by decide,
    (connect_client_clears_and_registers reconnecting_with_pending { Resp.none with sock := 3 }
      (by decide)).1,
    by decide⟩

/-- C4: an iteration that starts Disconnected (`client->sock < 0`) and whose
`connect_client` returns 0 starts `rx_timeout` as a one-shot timer (period
`K_NO_WAIT`) with a fresh full window `RX_TIMEOUT` = 30 s counted from the
moment of the call, and does so before it first enters `zsock_poll` on the new
connection: the calls of the iteration are `connect_client`, `eventfd_read`,
`k_timer_start(RX_TIMEOUT, K_NO_WAIT)`, `zsock_poll`, in this order, whatever
the other contexts do in between. -/
theorem connect_arms_timer_before_poll (s : State) (e1 e2 e3 e4 : List EnvEvent)
    (r1 rc r3 r4 : Resp) (hpc : s.pc = PC.top) (hsock : s.client.sock < 0)
    (hok : rc.ret = 0) :
    let t1 := golioth_main_step (env_run s e1) r1
    let t2 := golioth_main_step (env_run t1 e2) rc
    let t3 := golioth_main_step (env_run t2 e3) r3
    let t4 := golioth_main_step (env_run t3 e4) r4
    t1.pc = PC.connecting ∧ t2.pc = PC.flush ∧ t2.err = 0 ∧ t3.pc = PC.arm ∧
    t3.calls = s.calls ++ [Call.connect_client, Call.eventfd_read] ∧
    t4.pc = PC.poll ∧
    t4.rx_timeout = some { deadline := t4.now + RX_TIMEOUT, period := K_NO_WAIT } ∧
    RX_TIMEOUT = 30000 ∧ K_NO_WAIT = 0 ∧
    t4.calls = s.calls ++ [Call.connect_client, Call.eventfd_read,
      Call.k_timer_start RX_TIMEOUT K_NO_WAIT, Call.zsock_poll] ∧
    t4.client.sock = rc.sock := by
  intro t1 t2 t3 t4
  have h1 : t1 = _ := top_disconnected (env_run s e1) r1 (by simp [hpc]) (by simpa using hsock)
  have h2 : t2 = _ := connecting_ok (env_run t1 e2) rc (by simp [h1]) hok
  have h3 : t3 = _ := flush_eq (env_run t2 e3) r3 (by simp [h2])
  have h4 : t4 = _ := arm_eq (env_run t3 e4) r4 (by simp [h3])
  refine ⟨by simp [h1], by simp [h2], by simp [h2], by simp [h3], by simp [h3, h2, h1],
    by simp [h4], by simp [h4, k_timer_start], rfl, rfl, by simp [h4, h3, h2, h1],
    by simp [h4, h3, h2]⟩

theorem connect_arms_timer_before_poll_witness :
    (initial 7).pc = PC.top ∧ (initial 7).client.sock < 0 ∧
    ({ Resp.none with sock := 3 } : Resp).ret = 0 ∧
    connected_waiting.rx_timeout = some { deadline := 30000, period := 0 } ∧
    (golioth_main_step (env_run (golioth_main_step (env_run (golioth_main_step (env_run
      (golioth_main_step (env_run (initial 7) []) Resp.none) [])
      { Resp.none with sock := 3 }) []) Resp.none) []) Resp.none).pc = PC.poll :=
  ⟨by decide, by decide, by decide, by decide,
    (connect_arms_timer_before_poll (initial 7) [] [] [] [] Resp.none
      { Resp.none with sock := 3 } Resp.none Resp.none (by decide) (by decide)
      (by decide)).2.2.2.2.2.1⟩

/-! ## Failure of the wait primitive -/

theorem run_exited (es : List Event) (t : State) (h : t.pc = PC.exited) :
    (run t es).pc = PC.exited ∧ (run t es).calls = t.calls ∧ (run t es).client = t.client ∧
    (run t es).fds = t.fds ∧ (run t es).coap_replies = t.coap_replies := by
  induction es generalizing t with
  | nil => simp [run, h]
  | cons e es ih =>
    simp only [run, List.foldl_cons]
    cases e with
    | loop r =>
      have : step t (Event.loop r) = t := exited_eq t r h
      rw [this]
      exact ih t h
    | env e =>
      obtain ⟨a1, a2, a3, a4, _, _, a7⟩ := env_step_frame t e
      have := ih (step t (Event.env e)) (by simp [step, a1, h])
      simp only [run, step] at this ⊢
      rw [this.1, this.2.1, this.2.2.1, this.2.2.2.1, this.2.2.2.2, a2, a3, a4, a7]
      simp

/-- C10: in every loop state, when `zsock_poll` returns a negative value the
loop logs the error with `errno` and ends (`break`); it is not retried.  The
step inspects and changes nothing else (`fds` with its `revents`, the client,
the correlation table and the call log are as they were), and after it no
event whatsoever makes the loop thread call anything again: the call log
never grows, so there is no further `eventfd_read`, `golioth_process_rx`,
`golioth_disconnect`, `connect_client` or `zsock_poll`. -/
theorem poll_failure_ends_loop (s : State) (e : List EnvEvent) (r : Resp) (es : List Event)
    (hpc : s.pc = PC.poll) (hret : r.ret < 0) :
    let t := golioth_main_step (env_run s e) r
    t.pc = PC.exited ∧
    t.logs = (env_run s e).logs ++ [Log.err_error_in_poll r.errno] ∧
    t.calls = s.calls ∧ t.fds = s.fds ∧ t.client = s.client ∧
    t.coap_replies = s.coap_replies ∧
    (run t es).pc = PC.exited ∧ (run t es).calls = s.calls ∧
    (run t es).client = s.client ∧ (run t es).fds = s.fds := by
  intro t
  have h1 : t = _ := poll_fail (env_run s e) r (by simp [hpc]) hret
  have hx := run_exited es t (by simp [h1])
  refine ⟨by simp [h1], by simp [h1], by simp [h1], by simp [h1], by simp [h1], by simp [h1],
    hx.1, ?_, ?_, ?_⟩
  · rw [hx.2.1]; simp [h1]
  · rw [hx.2.2.1]; simp [h1]
  · rw [hx.2.2.2.1]; simp [h1]

theorem poll_failure_ends_loop_witness :
    connected_waiting.pc = PC.poll ∧ ({ Resp.none with ret := -1, errno := 5 } : Resp).ret < 0 ∧
    (golioth_main_step (env_run connected_waiting []) { Resp.none with ret := -1, errno := 5 }).pc
      = PC.exited :=
  ⟨by decide, by decide,
    (poll_failure_ends_loop connected_waiting [] { Resp.none with ret := -1, errno := 5 }
      [Event.loop Resp.none] (by decide) (by decide)).1⟩

/-! ## Persistent handshake failure -/

theorem connect_attempt_fails (s : State) (a : ConnectAttempt) (hpc : s.pc = PC.top)
    (hsock : s.client.sock < 0) (hret : a.answer.ret ≠ 0) :
    (connect_attempt s a).pc = PC.top ∧
    (connect_attempt s a).client.sock = a.answer.sock ∧
    (connect_attempt s a).calls = s.calls ++ [Call.connect_client, Call.k_sleep RX_TIMEOUT] ∧
    s.now + RX_TIMEOUT ≤ (connect_attempt s a).now := by
  simp only [connect_attempt]
  have e1 := top_disconnected (env_run s a.before) a.answer (by simp [hpc]) (by simpa using hsock)
  have hn1 := env_run_now a.before s
  generalize golioth_main_step (env_run s a.before) a.answer = t1 at e1 ⊢
  have e2 := connecting_fail (env_run t1 a.during) a.answer (by simp [e1]) hret
  have hn2 := env_run_now a.during t1
  generalize golioth_main_step (env_run t1 a.during) a.answer = t2 at e2 ⊢
  have e3 := sleeping_eq (env_run t2 a.asleep) a.answer _ (by rw [env_run_pc, e2])
  generalize golioth_main_step (env_run t2 a.asleep) a.answer = t3 at e3 ⊢
  have c1 : t1.calls = s.calls ++ [Call.connect_client] := by simp [e1]
  have c2 : t2.calls = t1.calls ++ [Call.k_sleep RX_TIMEOUT] := by simp [e2]
  have n1 : t1.now = (env_run s a.before).now := by simp [e1]
  refine ⟨by simp [e3], by simp [e3, e2], by simp [e3, c2, c1], ?_⟩
  rw [e3]
  simp only [le_max_iff]
  right
  omega

theorem connect_attempts_fail (as : List ConnectAttempt) (s : State) (hpc : s.pc = PC.top)
    (hsock : s.client.sock < 0) (hfail : ∀ a ∈ as, a.answer.ret ≠ 0 ∧ a.answer.sock < 0) :
    (as.foldl connect_attempt s).pc = PC.top ∧
    (as.foldl connect_attempt s).client.sock < 0 ∧
    (as.foldl connect_attempt s).calls = s.calls ++
      (List.replicate as.length [Call.connect_client, Call.k_sleep RX_TIMEOUT]).flatten ∧
    s.now + as.length * RX_TIMEOUT ≤ (as.foldl connect_attempt s).now := by
  induction as generalizing s with
  | nil => simp [hpc, hsock]
  | cons a as ih =>
    have ha := hfail a (List.mem_cons_self a as)
    obtain ⟨b1, b2, b3, b4⟩ := connect_attempt_fails s a hpc hsock ha.1
    have hs : (connect_attempt s a).client.sock < 0 := by rw [b2]; exact ha.2
    obtain ⟨c1, c2, c3, c4⟩ := ih (connect_attempt s a) b1 hs
      (fun x hx => hfail x (List.mem_cons_of_mem a hx))
    refine ⟨by simpa using c1, by simpa using c2, ?_, ?_⟩
    · simp only [List.foldl_cons, List.length_cons, List.replicate_succ, List.flatten_cons]
      rw [c3, b3]
      simp
    · simp only [List.foldl_cons, List.length_cons]
      have : s.now + (as.length + 1) * RX_TIMEOUT
          = s.now + RX_TIMEOUT + as.length * RX_TIMEOUT := by ring
      rw [this]
      exact le_trans (Nat.add_le_add_right b4 _) c4

/-- C6: starting Disconnected (`client->sock < 0`) at the top of the loop, if
`golioth_connect` fails on each of `n` consecutive attempts (leaving
`client->sock < 0`), then after each of the first `k ≤ n` attempts the loop is
back at the top of the loop and still Disconnected, its calls so far are `k`
times `connect_client` followed by `k_sleep(RX_TIMEOUT)` and nothing else (no
`k_timer_start`, no `zsock_poll`, no `golioth_process_rx`), and at least `k`
backoff delays have passed, whatever the other contexts do meanwhile. -/
theorem failed_connects_retry_with_backoff (s : State) (as : List ConnectAttempt)
    (hpc : s.pc = PC.top) (hsock : s.client.sock < 0)
    (hfail : ∀ a ∈ as, a.answer.ret ≠ 0 ∧ a.answer.sock < 0) (k : Nat) (hk : k ≤ as.length) :
    ((as.take k).foldl connect_attempt s).pc = PC.top ∧
    ((as.take k).foldl connect_attempt s).client.sock < 0 ∧
    ((as.take k).foldl connect_attempt s).calls = s.calls ++
      (List.replicate k [Call.connect_client, Call.k_sleep RX_TIMEOUT]).flatten ∧
    s.now + k * RX_TIMEOUT ≤ ((as.take k).foldl connect_attempt s).now := by
  have h := connect_attempts_fail (as.take k) s hpc hsock
    (fun a ha => hfail a (List.mem_of_mem_take ha))
  rw [List.length_take, Nat.min_eq_left hk] at h
  exact h

theorem failed_connects_retry_with_backoff_witness :
    (initial 7).pc = PC.top ∧ (initial 7).client.sock < 0 ∧
    handshake_fails.answer.ret ≠ 0 ∧ handshake_fails.answer.sock < 0 ∧
    (([handshake_fails, handshake_fails, handshake_fails].take 3).foldl connect_attempt
      (initial 7)).calls
      = (initial 7).calls ++
        (List.replicate 3 [Call.connect_client, Call.k_sleep RX_TIMEOUT]).flatten :=
  ⟨by decide, by decide, by decide, by decide,
    (failed_connects_retry_with_backoff (initial 7)
      [handshake_fails, handshake_fails, handshake_fails] (by decide) (by decide) (by decide)
      3 (by decide)).2.2.1⟩

/-! ## The inactivity timer is never stopped -/

/-- C2 fails on the code: after the receive-failure path the loop is
Disconnected (`client->sock < 0`, last call `golioth_disconnect`) while
`rx_timeout` is still armed with the deadline set just before
`golioth_process_rx`. -/
theorem timer_armed_after_receive_failure :
    receive_failure_path.pc = PC.top ∧ receive_failure_path.client.sock < 0 ∧
    receive_failure_path.rx_timeout = some { deadline := 30000, period := 0 } ∧
    receive_failure_path.calls =
      [Call.connect_client, Call.eventfd_read, Call.k_timer_start 30000 0, Call.zsock_poll,
       Call.k_timer_start 30000 0, Call.golioth_process_rx, Call.golioth_disconnect] := by
  decide

theorem env_step_eq_env_run (s : State) (e : EnvEvent) : env_step s e = env_run s [e] := rfl

theorem env_step_timer_kept (s : State) (e : EnvEvent) (t : k_timer_armed)
    (h : s.rx_timeout = some t) (hnow : s.now < t.deadline) :
    (env_step s e).rx_timeout = some t := by
  cases e with
  | elapse ms => simpa [env_step] using h
  | timer_expiry =>
    simp only [env_step, h]
    rw [if_neg (by omega)]
    exact h
  | work_run =>
    simp only [env_step]
    split
    · simpa [client_rx_timeout_work, client_request_reconnect] using h
    · exact h

/-- The other contexts leave an armed timer alone as long as its deadline has
not been reached. -/
theorem env_run_timer_kept (es : List EnvEvent) (s : State) (t : k_timer_armed)
    (h : s.rx_timeout = some t) (hnow : (env_run s es).now < t.deadline) :
    (env_run s es).rx_timeout = some t := by
  induction es generalizing s with
  | nil => simpa [env_run] using h
  | cons e es ih =>
    have m1 : s.now ≤ (env_step s e).now := by
      rw [env_step_eq_env_run]; exact env_run_now [e] s
    have m2 := env_run_now es (env_step s e)
    simp only [env_run, List.foldl_cons] at hnow m2 ⊢
    have hk := env_step_timer_kept s e t h (by omega)
    exact ih (env_step s e) hk hnow

/-- The other contexts never start a stopped timer. -/
theorem env_run_timer_none (es : List EnvEvent) (s : State) (h : s.rx_timeout = none) :
    (env_run s es).rx_timeout = none := by
  induction es generalizing s with
  | nil => simpa [env_run] using h
  | cons e es ih =>
    simp only [env_run, List.foldl_cons]
    refine ih (env_step s e) ?_
    cases e with
    | elapse ms => simpa [env_step] using h
    | timer_expiry => simp only [env_step, h]
    | work_run =>
      simp only [env_step]
      split
      · simpa [client_rx_timeout_work, client_request_reconnect] using h
      · exact h

/-- The other contexts can only let a one-shot timer expire: it keeps its
deadline or it is stopped. -/
theorem env_run_timer_oneshot (es : List EnvEvent) (s : State) (dl : Nat)
    (h : s.rx_timeout = some { deadline := dl, period := 0 }) :
    (env_run s es).rx_timeout = some { deadline := dl, period := 0 } ∨
    (env_run s es).rx_timeout = none := by
  induction es generalizing s with
  | nil => left; simpa [env_run] using h
  | cons e es ih =>
    simp only [env_run, List.foldl_cons]
    have hs : (env_step s e).rx_timeout = some { deadline := dl, period := 0 } ∨
        (env_step s e).rx_timeout = none := by
      cases e with
      | elapse ms => left; simpa [env_step] using h
      | timer_expiry =>
        simp only [env_step, h]
        split
        · right; simp [client_rx_timeout]
        · left; exact h
      | work_run =>
        simp only [env_step]
        split
        · left; simpa [client_rx_timeout_work, client_request_reconnect] using h
        · left; exact h
    rcases hs with hs | hs
    · exact ih (env_step s e) hs
    · right
      have := env_run_timer_none es (env_step s e) hs
      simpa [env_run] using this

/-- C2 as amended: the loop never disarms `rx_timeout`; across a transition
out of Connected the timer changes only by its own expiry.  A step of the loop
thread either leaves the timer as it is or starts it with a fresh
`RX_TIMEOUT`.  Under any interleaving with the other contexts: the reconnect
dispatch (`eventfd_read`, `golioth_disconnect`) ends Disconnected and neither
of its two steps touches the timer, so a stopped timer is still stopped and an
armed timer whose deadline has not been reached when `golioth_disconnect`
returns is still armed with that deadline; the receive-failure path (timer
restart, `golioth_process_rx` returns non-zero, `golioth_disconnect`) ends
Disconnected with the timer as the other contexts left it after the restart,
which is still armed with the window started just before `golioth_process_rx`
unless it has expired, and it cannot have expired when less than `RX_TIMEOUT`
has passed since the restart. -/
theorem loop_never_disarms_timer (s : State) (e1 e2 : List EnvEvent) (r1 r2 : Resp) :
    ((golioth_main_step s r1).rx_timeout = s.rx_timeout ∨
      (golioth_main_step s r1).rx_timeout
        = some { deadline := s.now + RX_TIMEOUT, period := K_NO_WAIT }) ∧
    (s.pc = PC.dispatch → (s.fds.get POLLFD_EVENT_RECONNECT).revents ≠ 0 →
      let t1 := golioth_main_step (env_run s e1) r1
      let t2 := golioth_main_step (env_run t1 e2) r2
      t2.pc = PC.top ∧ t2.client.sock = -1 ∧
      t1.rx_timeout = (env_run s e1).rx_timeout ∧
      t2.rx_timeout = (env_run t1 e2).rx_timeout ∧
      (s.rx_timeout = none → t2.rx_timeout = none) ∧
      (∀ t : k_timer_armed, s.rx_timeout = some t → t2.now < t.deadline →
        t2.rx_timeout = some t)) ∧
    (s.pc = PC.dispatch → (s.fds.get POLLFD_EVENT_RECONNECT).revents = 0 →
      (s.fds.get POLLFD_SOCKET).revents ≠ 0 → r2.ret ≠ 0 →
      let t1 := golioth_main_step (env_run s e1) r1
      let t2 := golioth_main_step (env_run t1 e2) r2
      t1.rx_timeout = some { deadline := t1.now + RX_TIMEOUT, period := K_NO_WAIT } ∧
      t2.pc = PC.top ∧ t2.client.sock = -1 ∧
      t2.rx_timeout = (env_run t1 e2).rx_timeout ∧
      (t2.rx_timeout = some { deadline := t1.now + RX_TIMEOUT, period := K_NO_WAIT } ∨
        t2.rx_timeout = none) ∧
      (t2.now < t1.now + RX_TIMEOUT →
        t2.rx_timeout = some { deadline := t1.now + RX_TIMEOUT, period := K_NO_WAIT })) := by
  refine ⟨?_, ?_, ?_⟩
  · cases h : s.pc with
    | top =>
      by_cases hs : s.client.sock < 0
      · rw [top_disconnected s r1 h hs]; simp
      · rw [top_connected s r1 h (not_lt.mp hs)]; simp
    | connecting =>
      by_cases hr : r1.ret = 0
      · rw [connecting_ok s r1 h hr]; simp
      · rw [connecting_fail s r1 h hr]; simp
    | sleeping w => rw [sleeping_eq s r1 w h]; simp
    | flush => rw [flush_eq s r1 h]; simp
    | arm => rw [arm_eq s r1 h]; simp [k_timer_start]
    | poll =>
      by_cases hr : r1.ret < 0
      · rw [poll_fail s r1 h hr]; simp
      · left
        simp only [golioth_main_step, h, hr, if_false]
        split <;> rfl
    | dispatch =>
      by_cases h0 : (s.fds.get POLLFD_EVENT_RECONNECT).revents = 0
      · by_cases h1 : (s.fds.get POLLFD_SOCKET).revents = 0
        · left; simp [golioth_main_step, h, h0, h1]
        · rw [dispatch_socket s r1 h h0 h1]; simp [k_timer_start]
      · rw [dispatch_reconnect s r1 h h0]; simp
    | teardown => rw [teardown_eq s r1 h]; simp
    | rx =>
      by_cases hr : r1.ret = 0
      · rw [rx_ok s r1 h hr]; simp
      · rw [rx_fail s r1 h hr]; simp
    | exited => rw [exited_eq s r1 h]; simp
  · intro hpc hrev t1 t2
    have h1 : t1 = _ :=
      dispatch_reconnect (env_run s e1) r1 (by simp [hpc]) (by simpa using hrev)
    have h2 : t2 = _ := teardown_eq (env_run t1 e2) r2 (by simp [h1])
    have q1 : t1.rx_timeout = (env_run s e1).rx_timeout := by rw [h1]
    have q2 : t2.rx_timeout = (env_run t1 e2).rx_timeout := by rw [h2]
    have n1 : t1.now = (env_run s e1).now := by rw [h1]
    have n2 : t2.now = (env_run t1 e2).now := by rw [h2]
    have m2 := env_run_now e2 t1
    refine ⟨by rw [h2], by rw [h2]; simp [golioth_disconnect], q1, q2, ?_, ?_⟩
    · intro hn
      rw [q2]
      exact env_run_timer_none e2 t1 (by rw [q1]; exact env_run_timer_none e1 s hn)
    · intro t ht hlt
      rw [q2]
      refine env_run_timer_kept e2 t1 t ?_ (by omega)
      rw [q1]
      exact env_run_timer_kept e1 s t ht (by omega)
  · intro hpc h0 h1 hr t1 t2
    have e1eq : t1 = _ :=
      dispatch_socket (env_run s e1) r1 (by simp [hpc]) (by simpa using h0) (by simpa using h1)
    have e2eq : t2 = _ := rx_fail (env_run t1 e2) r2 (by simp [e1eq]) hr
    have q1 : t1.rx_timeout = some { deadline := t1.now + RX_TIMEOUT, period := K_NO_WAIT } := by
      rw [e1eq]; simp [k_timer_start]
    have q2 : t2.rx_timeout = (env_run t1 e2).rx_timeout := by rw [e2eq]
    have n2 : t2.now = (env_run t1 e2).now := by rw [e2eq]
    refine ⟨q1, by rw [e2eq], by rw [e2eq]; simp [golioth_disconnect], q2, ?_, ?_⟩
    · rw [q2]
      exact env_run_timer_oneshot e2 t1 _ q1
    · intro hlt
      rw [q2]
      exact env_run_timer_kept e2 t1 _ q1 (by simpa [n2] using hlt)

theorem loop_never_disarms_timer_witness :
    socket_ready.pc = PC.dispatch ∧
    (socket_ready.fds.get POLLFD_EVENT_RECONNECT).revents = 0 ∧
    (socket_ready.fds.get POLLFD_SOCKET).revents ≠ 0 ∧
    ({ Resp.none with ret := -5 } : Resp).ret ≠ 0 ∧
    (golioth_main_step (env_run (golioth_main_step (env_run socket_ready [EnvEvent.elapse 10])
        Resp.none) [EnvEvent.elapse 20000, EnvEvent.timer_expiry, EnvEvent.work_run])
        { Resp.none with ret := -5 }).client.sock = -1 ∧
    (golioth_main_step (env_run (golioth_main_step (env_run socket_ready [EnvEvent.elapse 10])
        Resp.none) [EnvEvent.elapse 20000, EnvEvent.timer_expiry, EnvEvent.work_run])
        { Resp.none with ret := -5 }).rx_timeout
      = some { deadline := 30010, period := 0 } :=
  ⟨by decide, by decide, by decide, by decide,
    ((loop_never_disarms_timer socket_ready [EnvEvent.elapse 10]
      [EnvEvent.elapse 20000, EnvEvent.timer_expiry, EnvEvent.work_run]
      Resp.none { Resp.none with ret := -5 }).2.2
      (by decide) (by decide) (by decide) (by decide)).2.2.1,
    ((loop_never_disarms_timer socket_ready [EnvEvent.elapse 10]
      [EnvEvent.elapse 20000, EnvEvent.timer_expiry, EnvEvent.work_run]
      Resp.none { Resp.none with ret := -5 }).2.2
      (by decide) (by decide) (by decide) (by decide)).2.2.2.2.2 (by decide)⟩

/-! ## Reconnect requests and the flush after a connect -/

theorem eventfd_write_pos (c : Nat) : 0 < eventfd_write c 1 := by
  simp only [eventfd_write]
  split <;> omega

theorem env_step_keeps_request (s : State) (e : EnvEvent) (h : 0 < s.reconnect_eventfd) :
    0 < (env_step s e).reconnect_eventfd := by
  cases e with
  | elapse ms => simpa [env_step] using h
  | timer_expiry =>
    simp only [env_step]
    split
    · exact h
    · split
      · simpa [client_rx_timeout] using h
      · exact h
  | work_run =>
    simp only [env_step]
    split
    · simpa [client_rx_timeout_work, client_request_reconnect] using eventfd_write_pos _
    · exact h

theorem env_run_keeps_request (es : List EnvEvent) (s : State) (h : 0 < s.reconnect_eventfd) :
    0 < (env_run s es).reconnect_eventfd := by
  induction es generalizing s with
  | nil => simpa [env_run] using h
  | cons e es ih =>
    have := ih (env_step s e) (env_step_keeps_request s e h)
    simpa [env_run] using this

/-- A step of the system never removes an `eventfd_read` from the call log;
a step that adds none keeps a pending request pending; no step changes the
`events` asked for the reconnect eventfd. -/
theorem step_keeps_request (s : State) (ev : Event) :
    s.calls.count Call.eventfd_read ≤ (step s ev).calls.count Call.eventfd_read ∧
    ((step s ev).calls.count Call.eventfd_read = s.calls.count Call.eventfd_read →
      0 < s.reconnect_eventfd → 0 < (step s ev).reconnect_eventfd) ∧
    ((step s ev).fds.get POLLFD_EVENT_RECONNECT).events
      = (s.fds.get POLLFD_EVENT_RECONNECT).events := by
  cases ev with
  | env e =>
    obtain ⟨_, _, a3, _, _, _, a7⟩ := env_step_frame s e
    simp only [step]
    rw [a7, a3]
    exact ⟨le_refl _, fun _ h => env_step_keeps_request s e h, rfl⟩
  | loop r =>
    simp only [step]
    cases h : s.pc with
    | top =>
      by_cases hs : s.client.sock < 0
      · rw [top_disconnected s r h hs]; simp [List.count_append]
      · rw [top_connected s r h (not_lt.mp hs)]; simp [List.count_append]
    | connecting =>
      by_cases hr : r.ret = 0
      · rw [connecting_ok s r h hr]; simp [Arr2.get]
      · rw [connecting_fail s r h hr]; simp [List.count_append]
    | sleeping w => rw [sleeping_eq s r w h]; simp
    | flush => rw [flush_eq s r h]; simp [List.count_append]
    | arm => rw [arm_eq s r h]; simp [List.count_append]
    | poll =>
      by_cases hr : r.ret < 0
      · rw [poll_fail s r h hr]; simp
      · simp only [golioth_main_step, h, hr, if_false]
        split
        · simp
        · simp [zsock_poll_revents, Arr2.get, Arr2.set]
    | dispatch =>
      by_cases h0 : (s.fds.get POLLFD_EVENT_RECONNECT).revents = 0
      · by_cases h1 : (s.fds.get POLLFD_SOCKET).revents = 0
        · simp [golioth_main_step, h, h0, h1]
        · rw [dispatch_socket s r h h0 h1]; simp [List.count_append]
      · rw [dispatch_reconnect s r h h0]; simp [List.count_append]
    | teardown => rw [teardown_eq s r h]; simp [List.count_append]
    | rx =>
      by_cases hr : r.ret = 0
      · rw [rx_ok s r h hr]; simp
      · rw [rx_fail s r h hr]; simp [List.count_append]
    | exited => rw [exited_eq s r h]; simp

theorem run_count_mono (es : List Event) (s : State) :
    s.calls.count Call.eventfd_read ≤ (run s es).calls.count Call.eventfd_read := by
  induction es generalizing s with
  | nil => simp [run]
  | cons e es ih =>
    have := ih (step s e)
    simp only [run, List.foldl_cons] at this ⊢
    exact le_trans (step_keeps_request s e).1 this

theorem run_keeps_request (es : List Event) (s : State)
    (hcount : (run s es).calls.count Call.eventfd_read = s.calls.count Call.eventfd_read)
    (hpos : 0 < s.reconnect_eventfd) :
    0 < (run s es).reconnect_eventfd ∧
    ((run s es).fds.get POLLFD_EVENT_RECONNECT).events
      = (s.fds.get POLLFD_EVENT_RECONNECT).events := by
  induction es generalizing s with
  | nil => simpa [run] using hpos
  | cons e es ih =>
    obtain ⟨m1, m2, m3⟩ := step_keeps_request s e
    have m4 := run_count_mono es (step s e)
    simp only [run, List.foldl_cons] at hcount m4 ⊢
    have hc1 : (step s e).calls.count Call.eventfd_read = s.calls.count Call.eventfd_read := by
      omega
    have := ih (step s e) (by simp only [run]; omega) (m2 hc1 hpos)
    simp only [run] at this
    exact ⟨this.1, this.2.trans m3⟩

theorem poll_reconnect_ready (t : State) (r : Resp) (h1 : t.pc = PC.poll) (h2 : 0 ≤ r.ret)
    (h3 : 0 < t.reconnect_eventfd)
    (h4 : (t.fds.get POLLFD_EVENT_RECONNECT).events = ZSOCK_POLLIN) :
    golioth_main_step t r = { t with pc := PC.dispatch, fds := zsock_poll_revents t r } ∧
    ((zsock_poll_revents t r).get POLLFD_EVENT_RECONNECT).revents = ZSOCK_POLLIN := by
  have hz : ((zsock_poll_revents t r).get POLLFD_EVENT_RECONNECT).revents = ZSOCK_POLLIN := by
    simp only [zsock_poll_revents, h4]
    simp [Arr2.get, Arr2.set, h3, ZSOCK_POLLIN]
  refine ⟨?_, hz⟩
  simp only [golioth_main_step, h1, not_lt.mpr h2, if_false, hz]
  simp [ZSOCK_POLLIN]

/-- C3 fails on the code: a call of `client_request_reconnect` made while the
loop is inside `connect_client` leaves the signal pending, but the flush after
the successful connect discards it: the next `zsock_poll` does not report the
reconnect source, and the loop goes on to `golioth_process_rx` without any
teardown. -/
theorem reconnect_request_lost_by_flush :
    reconnecting.pc = PC.connecting ∧ reconnecting.reconnect_eventfd = 0 ∧
    request_during_connect.pc = PC.connecting ∧
    request_during_connect.reconnect_eventfd = 1 ∧
    after_request_during_connect.pc = PC.dispatch ∧
    (after_request_during_connect.fds.get POLLFD_EVENT_RECONNECT).revents = 0 ∧
    after_request_during_connect.reconnect_eventfd = 0 ∧
    (run after_request_during_connect [Event.loop Resp.none, Event.loop Resp.none]).calls
      = request_during_connect.calls ++
        [Call.eventfd_read, Call.k_timer_start 30000 0, Call.zsock_poll,
         Call.k_timer_start 30000 0, Call.golioth_process_rx] := by
  decide

/-- C3 as amended: a reconnect request is not lost unless the loop reads the
eventfd before its next wait.  After a call of `client_request_reconnect` in
any state, if the system (loop and other contexts, any events) reaches a
`zsock_poll` without an `eventfd_read` in between, that is, the call was made
after the flush that follows a successful connect, then this `zsock_poll`,
when it returns a non-negative value, reports the reconnect source ready, and
the loop then runs the teardown: `eventfd_read` followed by
`golioth_disconnect`.  A request that is pending when `connect_client`
succeeds is discarded by the flush (the loop thread at the flush leaves the
counter at zero and goes on to start the timer). -/
theorem reconnect_request_seen_unless_flushed (s : State) (es : List Event)
    (e1 e2 : List EnvEvent) (rp r1 r2 : Resp)
    (hev : (s.fds.get POLLFD_EVENT_RECONNECT).events = ZSOCK_POLLIN)
    (hnoread : (run (client_request_reconnect s) es).calls.count Call.eventfd_read
      = s.calls.count Call.eventfd_read)
    (hpc : (run (client_request_reconnect s) es).pc = PC.poll) (hret : 0 ≤ rp.ret) :
    let w := run (client_request_reconnect s) es
    let t0 := golioth_main_step w rp
    let t1 := golioth_main_step (env_run t0 e1) r1
    let t2 := golioth_main_step (env_run t1 e2) r2
    t0.pc = PC.dispatch ∧ (t0.fds.get POLLFD_EVENT_RECONNECT).revents ≠ 0 ∧
    t1.pc = PC.teardown ∧ t2.pc = PC.top ∧
    t2.calls = w.calls ++ [Call.eventfd_read, Call.golioth_disconnect] ∧
    t2.client.sock = -1 ∧
    (∀ f : State, f.pc = PC.flush →
      (golioth_main_step f r1).reconnect_eventfd = 0 ∧ (golioth_main_step f r1).pc = PC.arm ∧
      (golioth_main_step f r1).calls = f.calls ++ [Call.eventfd_read]) := by
  intro w t0 t1 t2
  have hk := run_keeps_request es (client_request_reconnect s)
    (by simpa [client_request_reconnect] using hnoread)
    (by simpa [client_request_reconnect] using eventfd_write_pos s.reconnect_eventfd)
  have hev2 : (w.fds.get POLLFD_EVENT_RECONNECT).events = ZSOCK_POLLIN := by
    rw [hk.2]; simpa [client_request_reconnect] using hev
  obtain ⟨p1, p2⟩ := poll_reconnect_ready w rp hpc hret hk.1 hev2
  have h0 : t0 = _ := p1
  have hrev : (t0.fds.get POLLFD_EVENT_RECONNECT).revents ≠ 0 := by
    rw [h0]
    show ((zsock_poll_revents w rp).get POLLFD_EVENT_RECONNECT).revents ≠ 0
    rw [p2]
    decide
  have h1 : t1 = _ :=
    dispatch_reconnect (env_run t0 e1) r1 (by simp [h0]) (by simpa using hrev)
  have h2 : t2 = _ := teardown_eq (env_run t1 e2) r2 (by simp [h1])
  refine ⟨by simp [h0], hrev, by simp [h1], by simp [h2], by simp [h2, h1, h0],
    by simp [h2, golioth_disconnect], ?_⟩
  intro f hf
  rw [flush_eq f r1 hf]
  exact ⟨eventfd_read_drains _ _, rfl, rfl⟩

theorem reconnect_request_seen_unless_flushed_witness :
    (connected_waiting.fds.get POLLFD_EVENT_RECONNECT).events = ZSOCK_POLLIN ∧
    (run (client_request_reconnect connected_waiting) [Event.env (EnvEvent.elapse 5)]).pc
      = PC.poll ∧
    (golioth_main_step (env_run (golioth_main_step (env_run (golioth_main_step
      (run (client_request_reconnect connected_waiting) [Event.env (EnvEvent.elapse 5)])
      { Resp.none with ret := 1 }) []) Resp.none) []) Resp.none).calls
      = (run (client_request_reconnect connected_waiting) [Event.env (EnvEvent.elapse 5)]).calls
        ++ [Call.eventfd_read, Call.golioth_disconnect] :=
  ⟨by decide, by decide,
    (reconnect_request_seen_unless_flushed connected_waiting [Event.env (EnvEvent.elapse 5)]
      [] [] { Resp.none with ret := 1 } Resp.none Resp.none (by decide) (by decide) (by decide)
      (by decide)).2.2.2.2.1⟩

/-! ## Coalescing of reconnect requests -/

theorem requests_pending (n : Nat) (s : State) (hn : 1 ≤ n) :
    0 < (client_request_reconnect^[n] s).reconnect_eventfd := by
  obtain ⟨k, rfl⟩ : ∃ k, n = k + 1 := ⟨n - 1, by omega⟩
  rw [Function.iterate_succ_apply']
  simpa [client_request_reconnect] using eventfd_write_pos _

theorem requests_frame (n : Nat) (s : State) :
    client_request_reconnect^[n] s
      = { s with reconnect_eventfd := (client_request_reconnect^[n] s).reconnect_eventfd } := by
  induction n with
  | zero => rfl
  | succ k ih =>
    rw [Function.iterate_succ_apply']
    conv_lhs => rw [ih]
    simp [client_request_reconnect]

/-- One event keeps two runs together that differ only in how many requests
are pending: they still agree outside the counter and the scratch local, the
signal is pending in both or the counters are equal, equal counters stay
equal, and an `eventfd_read` makes them equal. -/
theorem step_coalesced (a b : State) (ev : Event) (h : agree_but_signal a b)
    (hc : a.reconnect_eventfd = b.reconnect_eventfd ∨
      (0 < a.reconnect_eventfd ∧ 0 < b.reconnect_eventfd)) :
    agree_but_signal (step a ev) (step b ev) ∧
    ((step a ev).reconnect_eventfd = (step b ev).reconnect_eventfd ∨
      (0 < (step a ev).reconnect_eventfd ∧ 0 < (step b ev).reconnect_eventfd)) ∧
    (a.reconnect_eventfd = b.reconnect_eventfd →
      (step a ev).reconnect_eventfd = (step b ev).reconnect_eventfd) ∧
    ((step a ev).calls.count Call.eventfd_read ≠ a.calls.count Call.eventfd_read →
      (step a ev).reconnect_eventfd = (step b ev).reconnect_eventfd) := by
  obtain ⟨pc, cl, fds, cr, evv, err, efd, tm, wk, now, calls, logs⟩ := a
  obtain ⟨pc', cl', fds', cr', evv', err', efd', tm', wk', now', calls', logs'⟩ := b
  simp only [agree_but_signal, State.mk.injEq] at h
  obtain ⟨rfl, rfl, rfl, rfl, -, rfl, -, rfl, rfl, rfl, rfl, rfl⟩ := h
  dsimp only at hc
  cases ev with
  | env e =>
    cases e with
    | elapse ms => simpa [step, env_step, agree_but_signal] using hc
    | timer_expiry =>
      cases tm with
      | none => simpa [step, env_step, agree_but_signal] using hc
      | some t =>
        by_cases hd : t.deadline ≤ now
        · simpa [step, env_step, agree_but_signal, hd, client_rx_timeout] using hc
        · simpa [step, env_step, agree_but_signal, hd, client_rx_timeout] using hc
    | work_run =>
      cases wk with
      | false => simpa [step, env_step, agree_but_signal] using hc
      | true =>
        simp only [step, env_step, agree_but_signal, client_rx_timeout_work,
          client_request_reconnect, if_true]
        refine ⟨by simp, ?_, ?_, by simp⟩
        · right; exact ⟨eventfd_write_pos _, eventfd_write_pos _⟩
        · intro he; rw [he]
  | loop r =>
    have hd1 : (eventfd_read efd evv).1 = 0 := eventfd_read_drains _ _
    have hd2 : (eventfd_read efd' evv').1 = 0 := eventfd_read_drains _ _
    have hp : (0 < efd) = (0 < efd') := by
      rcases hc with hc | hc
      · rw [hc]
      · simp [hc.1, hc.2]
    cases pc with
    | top =>
      by_cases hs : cl.sock < 0
      · simpa [step, golioth_main_step, agree_but_signal, hs, List.count_append] using hc
      · simpa [step, golioth_main_step, agree_but_signal, hs, List.count_append] using hc
    | connecting =>
      by_cases hr : r.ret = 0
      · simpa [step, golioth_main_step, agree_but_signal, hr, connect_client, golioth_connect,
          List.count_append] using hc
      · simpa [step, golioth_main_step, agree_but_signal, hr, connect_client, golioth_connect,
          List.count_append] using hc
    | sleeping w => simpa [step, golioth_main_step, agree_but_signal] using hc
    | flush =>
      simp [step, golioth_main_step, agree_but_signal, hd1, hd2]
    | arm => simpa [step, golioth_main_step, agree_but_signal, List.count_append] using hc
    | poll =>
      by_cases hr : r.ret < 0
      · simpa [step, golioth_main_step, agree_but_signal, hr] using hc
      · have hz : zsock_poll_revents
            { pc := PC.poll, client := cl, fds := fds, coap_replies := cr, eventfd_value := evv,
              err := err, reconnect_eventfd := efd, rx_timeout := tm, rx_timeout_work := wk,
              now := now, calls := calls, logs := logs } r
            = zsock_poll_revents
            { pc := PC.poll, client := cl, fds := fds, coap_replies := cr, eventfd_value := evv',
              err := err, reconnect_eventfd := efd', rx_timeout := tm, rx_timeout_work := wk,
              now := now, calls := calls, logs := logs } r := by
          simp only [zsock_poll_revents, hp]
        simp only [step, golioth_main_step, hr, if_false, hz]
        split
        · simpa [agree_but_signal] using hc
        · simpa [agree_but_signal] using hc
    | dispatch =>
      by_cases h0 : (fds.get POLLFD_EVENT_RECONNECT).revents = 0
      · by_cases h1 : (fds.get POLLFD_SOCKET).revents = 0
        · simpa [step, golioth_main_step, agree_but_signal, h0, h1] using hc
        · simpa [step, golioth_main_step, agree_but_signal, h0, h1, List.count_append] using hc
      · simp [step, golioth_main_step, agree_but_signal, h0, hd1, hd2]
    | teardown => simpa [step, golioth_main_step, agree_but_signal, List.count_append] using hc
    | rx =>
      by_cases hr : r.ret = 0
      · simpa [step, golioth_main_step, agree_but_signal, hr, golioth_process_rx] using hc
      · simpa [step, golioth_main_step, agree_but_signal, hr, golioth_process_rx,
          List.count_append] using hc
    | exited => simpa [step, golioth_main_step, agree_but_signal] using hc

theorem run_coalesced (es : List Event) (a b : State) (c0 : Nat) (h : agree_but_signal a b)
    (hc : a.reconnect_eventfd = b.reconnect_eventfd ∨
      (0 < a.reconnect_eventfd ∧ 0 < b.reconnect_eventfd))
    (hcnt : a.calls.count Call.eventfd_read ≠ c0 → a.reconnect_eventfd = b.reconnect_eventfd)
    (hmono : c0 ≤ a.calls.count Call.eventfd_read) :
    agree_but_signal (run a es) (run b es) ∧
    ((run a es).calls.count Call.eventfd_read ≠ c0 →
      (run a es).reconnect_eventfd = (run b es).reconnect_eventfd) := by
  induction es generalizing a b with
  | nil => exact ⟨h, hcnt⟩
  | cons e es ih =>
    obtain ⟨s1, s2, s3, s4⟩ := step_coalesced a b e h hc
    have m1 := (step_keeps_request a e).1
    simp only [run, List.foldl_cons]
    refine ih (step a e) (step b e) s1 s2 ?_ (le_trans hmono m1)
    intro hne
    by_cases hsame : (step a e).calls.count Call.eventfd_read = a.calls.count Call.eventfd_read
    · exact s3 (hcnt (by rw [← hsame]; exact hne))
    · exact s4 hsame

theorem agree_but_signal_eq (a b : State) (h : agree_but_signal a b) :
    { a with reconnect_eventfd := b.reconnect_eventfd, eventfd_value := b.eventfd_value } = b ∧
    a.calls = b.calls := by
  obtain ⟨pc, cl, fds, cr, evv, err, efd, tm, wk, now, calls, logs⟩ := a
  obtain ⟨pc', cl', fds', cr', evv', err', efd', tm', wk', now', calls', logs'⟩ := b
  simp only [agree_but_signal, State.mk.injEq] at h
  obtain ⟨rfl, rfl, rfl, rfl, -, rfl, -, rfl, rfl, rfl, rfl, rfl⟩ := h
  exact ⟨rfl, rfl⟩

/-- C7 fails on the code: between two consumptions (the `eventfd_read` of a
teardown and the `eventfd_read` of the flush after the next successful
connect) three calls of `client_request_reconnect` leave the counter at 3, the
flush clears it, and the next `zsock_poll` does not report the reconnect
source: the loop goes on to `golioth_process_rx` and no `golioth_disconnect`
follows the requests. -/
theorem coalesced_requests_flushed_without_teardown :
    reconnecting_after_teardown.pc = PC.connecting ∧
    reconnecting_after_teardown.reconnect_eventfd = 0 ∧
    reconnecting_after_teardown.calls =
      [Call.connect_client, Call.eventfd_read, Call.k_timer_start 30000 0, Call.zsock_poll,
       Call.eventfd_read, Call.golioth_disconnect, Call.connect_client] ∧
    three_requests_during_connect.reconnect_eventfd = 3 ∧
    after_three_requests.pc = PC.dispatch ∧
    (after_three_requests.fds.get POLLFD_EVENT_RECONNECT).revents = 0 ∧
    after_three_requests.reconnect_eventfd = 0 ∧
    (run after_three_requests [Event.loop Resp.none, Event.loop Resp.none]).calls
      = three_requests_during_connect.calls ++
        [Call.eventfd_read, Call.k_timer_start 30000 0, Call.zsock_poll,
         Call.k_timer_start 30000 0, Call.golioth_process_rx] := by
  decide

/-- C7 as amended: raising the Reconnect Signal coalesces.  For every
`n ≥ 1`, every state and every later schedule of events (loop steps and other
contexts), `n` calls of `client_request_reconnect` lead to the same actions
and the same state as a single call, apart from the eventfd counter while the
requests are still unconsumed and the never-read scratch local
`eventfd_value`: the call logs are equal, the signal is pending in both runs
until the next `eventfd_read`, and once an `eventfd_read` has run the counters
are equal.  The consuming `eventfd_read`, be it the flush after a successful
connect or the read of the dispatch, clears the signal completely.  When the
loop reaches `zsock_poll` with no `eventfd_read` after the calls, that
`zsock_poll`, returning a non-negative value, reports the reconnect source
ready, one `eventfd_read` leaves the signal not pending, and exactly one
`golioth_disconnect` follows.  When `connect_client` succeeds first, the
consuming read is the flush, after which the loop goes on to start the timer:
the requests are discarded without a teardown. -/
theorem reconnect_requests_coalesce (s : State) (n : Nat) (es : List Event)
    (e1 e2 : List EnvEvent) (rp r1 r2 : Resp) (hn : 1 ≤ n) :
    let a := run (client_request_reconnect^[n] s) es
    let b := run (client_request_reconnect s) es
    { a with reconnect_eventfd := b.reconnect_eventfd, eventfd_value := b.eventfd_value } = b ∧
    a.calls = b.calls ∧
    (a.calls.count Call.eventfd_read = s.calls.count Call.eventfd_read →
      0 < a.reconnect_eventfd ∧ 0 < b.reconnect_eventfd) ∧
    (a.calls.count Call.eventfd_read ≠ s.calls.count Call.eventfd_read →
      a.reconnect_eventfd = b.reconnect_eventfd) ∧
    (∀ u : State, u.pc = PC.flush →
      (golioth_main_step u r1).reconnect_eventfd = 0 ∧ (golioth_main_step u r1).pc = PC.arm ∧
      (golioth_main_step u r1).calls = u.calls ++ [Call.eventfd_read]) ∧
    (∀ u : State, u.pc = PC.dispatch → (u.fds.get POLLFD_EVENT_RECONNECT).revents ≠ 0 →
      (golioth_main_step u r1).reconnect_eventfd = 0 ∧
      (golioth_main_step u r1).pc = PC.teardown ∧
      (golioth_main_step u r1).calls = u.calls ++ [Call.eventfd_read]) ∧
    ((s.fds.get POLLFD_EVENT_RECONNECT).events = ZSOCK_POLLIN →
      a.calls.count Call.eventfd_read = s.calls.count Call.eventfd_read →
      a.pc = PC.poll → 0 ≤ rp.ret →
      let a0 := golioth_main_step a rp
      let a1 := golioth_main_step (env_run a0 e1) r1
      let a2 := golioth_main_step (env_run a1 e2) r2
      a0.pc = PC.dispatch ∧ (a0.fds.get POLLFD_EVENT_RECONNECT).revents ≠ 0 ∧
      a1.pc = PC.teardown ∧ a1.reconnect_eventfd = 0 ∧
      a2.pc = PC.top ∧ a2.client.sock = -1 ∧
      a2.calls = a.calls ++ [Call.eventfd_read, Call.golioth_disconnect]) := by
  intro a b
  have hfa := requests_frame n s
  have hpa := requests_pending n s hn
  have hpb : 0 < (client_request_reconnect s).reconnect_eventfd := by
    simpa [client_request_reconnect] using eventfd_write_pos s.reconnect_eventfd
  have hcalls_a : (client_request_reconnect^[n] s).calls = s.calls := by rw [hfa]
  have hcalls_b : (client_request_reconnect s).calls = s.calls := rfl
  have hagree : agree_but_signal (client_request_reconnect^[n] s) (client_request_reconnect s) := by
    simp only [agree_but_signal]
    rw [hfa]
    simp [client_request_reconnect]
  obtain ⟨g1, g2⟩ := run_coalesced es _ _ (s.calls.count Call.eventfd_read) hagree
    (Or.inr ⟨hpa, hpb⟩) (fun hne => absurd (by rw [hcalls_a]) hne) (by rw [hcalls_a])
  obtain ⟨q1, q2⟩ := agree_but_signal_eq a b g1
  have keepa : a.calls.count Call.eventfd_read = s.calls.count Call.eventfd_read →
      0 < a.reconnect_eventfd ∧
      (a.fds.get POLLFD_EVENT_RECONNECT).events = (s.fds.get POLLFD_EVENT_RECONNECT).events := by
    intro hc
    have := run_keeps_request es (client_request_reconnect^[n] s) (by rw [hcalls_a]; exact hc) hpa
    refine ⟨this.1, this.2.trans ?_⟩
    rw [hfa]
  refine ⟨q1, q2, ?_, g2, ?_, ?_, ?_⟩
  · intro hc
    refine ⟨(keepa hc).1, ?_⟩
    exact (run_keeps_request es (client_request_reconnect s)
      (by rw [hcalls_b, ← q2]; exact hc) hpb).1
  · intro u hu
    rw [flush_eq u r1 hu]
    exact ⟨eventfd_read_drains _ _, rfl, rfl⟩
  · intro u hu hrev
    rw [dispatch_reconnect u r1 hu hrev]
    exact ⟨eventfd_read_drains _ _, rfl, rfl⟩
  · intro hev hc hpc hret a0 a1 a2
    obtain ⟨k1, k2⟩ := keepa hc
    obtain ⟨p1, p2⟩ := poll_reconnect_ready a rp hpc hret k1 (k2.trans hev)
    have h0 : a0 = _ := p1
    have hrev : (a0.fds.get POLLFD_EVENT_RECONNECT).revents ≠ 0 := by
      rw [h0]
      show ((zsock_poll_revents a rp).get POLLFD_EVENT_RECONNECT).revents ≠ 0
      rw [p2]
      decide
    have h1 : a1 = _ :=
      dispatch_reconnect (env_run a0 e1) r1 (by simp [h0]) (by simpa using hrev)
    have h2 : a2 = _ := teardown_eq (env_run a1 e2) r2 (by simp [h1])
    refine ⟨by simp [h0], hrev, by simp [h1], ?_, by simp [h2],
      by simp [h2, golioth_disconnect], by simp [h2, h1, h0]⟩
    rw [h1]
    exact eventfd_read_drains _ _

theorem reconnect_requests_coalesce_witness :
    1 ≤ 3 ∧
    (connected_waiting.fds.get POLLFD_EVENT_RECONNECT).events = ZSOCK_POLLIN ∧
    (run (client_request_reconnect^[3] connected_waiting)
        [Event.env (EnvEvent.elapse 5)]).calls.count Call.eventfd_read
      = connected_waiting.calls.count Call.eventfd_read ∧
    (run (client_request_reconnect^[3] connected_waiting) [Event.env (EnvEvent.elapse 5)]).pc
      = PC.poll ∧
    (0 : Int) ≤ ({ Resp.none with ret := 1 } : Resp).ret ∧
    (golioth_main_step (env_run (golioth_main_step (env_run (golioth_main_step
      (run (client_request_reconnect^[3] connected_waiting) [Event.env (EnvEvent.elapse 5)])
      { Resp.none with ret := 1 }) [EnvEvent.elapse 1]) Resp.none) [EnvEvent.elapse 1])
      Resp.none).calls
      = (run (client_request_reconnect^[3] connected_waiting)
          [Event.env (EnvEvent.elapse 5)]).calls
        ++ [Call.eventfd_read, Call.golioth_disconnect] :=
  ⟨by decide, by decide, by decide, by decide, by decide,
    ((reconnect_requests_coalesce connected_waiting 3 [Event.env (EnvEvent.elapse 5)]
      [EnvEvent.elapse 1] [EnvEvent.elapse 1] { Resp.none with ret := 1 } Resp.none Resp.none
      (by decide)).2.2.2.2.2.2 (by decide) (by decide) (by decide) (by decide)).2.2.2.2.2.2⟩

/-! ## The inactivity scenario -/

theorem connect_sequence (s : State) (r rc : Resp) (hpc : s.pc = PC.top)
    (hsock : s.client.sock < 0) (hok : rc.ret = 0) :
    golioth_main_step (golioth_main_step (golioth_main_step (golioth_main_step s r) rc) r) r =
      { s with pc := PC.poll, client := { sock := rc.sock }, err := 0,
               fds := { s.fds with e1 := { fd := rc.sock, events := ZSOCK_POLLIN,
                                           revents := s.fds.e1.revents } },
               coap_replies := { e0 := { token := 0, predicate := 0, occupied := false },
                                 e1 := { token := 0, predicate := 0, occupied := false } },
               reconnect_eventfd := 0,
               eventfd_value := (eventfd_read s.reconnect_eventfd s.eventfd_value).2,
               rx_timeout := some { deadline := s.now + RX_TIMEOUT, period := 0 },
               logs := s.logs ++ [Log.inf_starting_connect, Log.inf_client_connected],
               calls := s.calls ++ [Call.connect_client, Call.eventfd_read,
                 Call.k_timer_start RX_TIMEOUT K_NO_WAIT, Call.zsock_poll] } := by
  have e1 := top_disconnected s r hpc hsock
  have e2 := connecting_ok (golioth_main_step s r) rc (by rw [e1]) hok
  have e3 := flush_eq (golioth_main_step (golioth_main_step s r) rc) r (by rw [e2])
  have e4 := arm_eq (golioth_main_step (golioth_main_step (golioth_main_step s r) rc) r) r
    (by rw [e3])
  rw [e4, e3, e2, e1]
  simp [eventfd_read_drains, k_timer_start, K_NO_WAIT]

/-- C9: the inactivity scenario with the window `RX_TIMEOUT` = 30 s.  From a
Disconnected loop with no timeout work pending, a connect that succeeds at
time `t` leaves the loop waiting in `zsock_poll` with `rx_timeout` armed for
`t + 30 s` and the signal not pending.  With no socket readiness, for every
`d < 30 s` the timer cannot expire at `t + d`, nothing raises the signal and
`zsock_poll` keeps waiting.  At `t + 30 s` the expiry (`client_rx_timeout`
submits `rx_timeout_work`, which runs `client_rx_timeout_work`) raises the
signal exactly once: the counter is 1, the one-shot timer is stopped and no
work is pending, so a further expiry or work run changes nothing.
`zsock_poll` then returns with the reconnect source (and only it) ready, the
loop reads the eventfd and calls `golioth_disconnect`, ending Disconnected,
and the very next iteration enters `connect_client` again. -/
theorem inactivity_timeout_reconnects (s : State) (r rc rp : Resp) (hpc : s.pc = PC.top)
    (hsock : s.client.sock < 0) (hwork : s.rx_timeout_work = false) (hok : rc.ret = 0)
    (hev : (s.fds.get POLLFD_EVENT_RECONNECT).events = ZSOCK_POLLIN)
    (hret : 0 ≤ rp.ret) (hquiet : rp.revents = 0) :
    let c := golioth_main_step (golioth_main_step (golioth_main_step (golioth_main_step s r) rc)
      r) r
    let f := env_run c [EnvEvent.elapse RX_TIMEOUT, EnvEvent.timer_expiry, EnvEvent.work_run]
    let p := golioth_main_step f rp
    let d := golioth_main_step (golioth_main_step p r) r
    let n := golioth_main_step d r
    c.pc = PC.poll ∧ c.now = s.now ∧ c.reconnect_eventfd = 0 ∧
    c.rx_timeout = some { deadline := s.now + RX_TIMEOUT, period := 0 } ∧ RX_TIMEOUT = 30000 ∧
    (∀ ms < RX_TIMEOUT,
      env_run c [EnvEvent.elapse ms, EnvEvent.timer_expiry, EnvEvent.work_run]
        = env_step c (EnvEvent.elapse ms) ∧
      golioth_main_step (env_step c (EnvEvent.elapse ms)) rp = env_step c (EnvEvent.elapse ms)) ∧
    f.now = s.now + RX_TIMEOUT ∧ f.reconnect_eventfd = 1 ∧ f.rx_timeout = none ∧
    f.rx_timeout_work = false ∧
    env_run f [EnvEvent.timer_expiry, EnvEvent.work_run] = f ∧
    p.pc = PC.dispatch ∧ (p.fds.get POLLFD_EVENT_RECONNECT).revents ≠ 0 ∧
    (p.fds.get POLLFD_SOCKET).revents = 0 ∧
    d.pc = PC.top ∧ d.client.sock = -1 ∧ d.reconnect_eventfd = 0 ∧
    d.calls = c.calls ++ [Call.eventfd_read, Call.golioth_disconnect] ∧
    n.pc = PC.connecting ∧ n.calls = d.calls ++ [Call.connect_client] := by
  intro c f p d n
  have hc : c = _ := connect_sequence s r rc hpc hsock hok
  have hcev : (c.fds.get POLLFD_EVENT_RECONNECT).events = ZSOCK_POLLIN := by
    rw [hc]; simpa [Arr2.get] using hev
  have hf : f = { c with now := s.now + RX_TIMEOUT, reconnect_eventfd := 1, rx_timeout := none,
                         rx_timeout_work := false,
                         logs := c.logs ++ [Log.err_rx_client_timeout] } := by
    show env_run c _ = _
    rw [hc]
    simp [env_run, env_step, client_rx_timeout, client_rx_timeout_work,
      client_request_reconnect, eventfd_write, hwork]
  obtain ⟨p1, p2⟩ := poll_reconnect_ready f rp (by rw [hf, hc]) hret (by rw [hf]; exact Nat.one_pos)
    (by rw [hf]; exact hcev)
  have hp : p = _ := p1
  have hprev : (p.fds.get POLLFD_EVENT_RECONNECT).revents ≠ 0 := by
    rw [hp]; show _ ≠ 0; rw [p2]; decide
  have hd1 : golioth_main_step p r = _ := dispatch_reconnect p r (by rw [hp]) hprev
  have hd : d = _ := teardown_eq (golioth_main_step p r) r (by rw [hd1])
  have hn : n = _ := top_disconnected d r (by rw [hd]) (by rw [hd]; simp [golioth_disconnect])
  refine ⟨by rw [hc], by rw [hc], by rw [hc], by rw [hc], rfl, ?_, by rw [hf], by rw [hf],
    by rw [hf], by rw [hf], ?_, by rw [hp], hprev, ?_, by rw [hd], ?_, ?_, ?_, by rw [hn],
    by rw [hn]⟩
  · intro ms hms
    have hlt : ¬ (s.now + RX_TIMEOUT ≤ s.now + ms) := by omega
    constructor
    · rw [hc]
      simp [env_run, env_step, hwork, hlt]
    · rw [hc]
      simp [env_step, golioth_main_step, zsock_poll_revents, Arr2.get, Arr2.set, hquiet, hret]
  · rw [hf]
    simp [env_run, env_step]
  · rw [hp]
    simp [zsock_poll_revents, Arr2.get, Arr2.set, hquiet]
  · rw [hd]; simp [golioth_disconnect]
  · rw [hd, hd1]; exact eventfd_read_drains _ _
  · rw [hd, hd1, hp, hf]; simp

theorem inactivity_timeout_reconnects_witness :
    (initial 7).pc = PC.top ∧ (initial 7).client.sock < 0 ∧
    (initial 7).rx_timeout_work = false ∧ ({ Resp.none with sock := 3 } : Resp).ret = 0 ∧
    ((initial 7).fds.get POLLFD_EVENT_RECONNECT).events = ZSOCK_POLLIN ∧
    (0 : Int) ≤ ({ Resp.none with ret := 1 } : Resp).ret ∧
    ({ Resp.none with ret := 1 } : Resp).revents = 0 ∧
    (golioth_main_step (golioth_main_step (golioth_main_step (golioth_main_step (initial 7)
      Resp.none) { Resp.none with sock := 3 }) Resp.none) Resp.none).pc = PC.poll :=
  ⟨by decide, by decide, by decide, by decide, by decide, by decide, by decide,
    (inactivity_timeout_reconnects (initial 7) Resp.none { Resp.none with sock := 3 }
      { Resp.none with ret := 1 } (by decide) (by decide) (by decide) (by decide) (by decide)
      (by decide) (by decide)).1⟩

end LightdbStream
